import Mathlib

/-!
Shallow embedding of the n3o-mcp-monitor relay (src/src/index.ts, class
TraeMcpMonitor): Zod input validation for the two tools, envelope
construction, the WebSocket connection manager (connect / open / close /
reconnect backoff), and the HTTP /mcp front end's advertised schema.
JS objects are modelled as association lists of string keys to JSON values;
machine time (Date.now(), new Date().toISOString()) is passed in explicitly.
-/

namespace McpMonitor

/-- JSON values, as produced by parsing the JS objects the server handles. -/
inductive Json where
  | str (s : String)
  | num (n : Int)
  | boolean (b : Bool)
  | null
  | arr (xs : List Json)
  | obj (fields : List (String × Json))

/-- A JS object: ordered string-keyed fields (first occurrence wins on read). -/
abbrev JObj := List (String × Json)

/-- Property read `o[key]`: first matching key, if any. -/
def jGet : JObj → String → Option Json
  | [], _ => none
  | (k, v) :: rest, key => if k = key then some v else jGet rest key

/-- JS object-literal update semantics: if the key exists its value is
replaced in place, otherwise the pair is appended at the end. -/
def jSet : JObj → String → Json → JObj
  | [], k, v => [(k, v)]
  | (k', v') :: rest, k, v =>
    if k' = k then (k', v) :: rest else (k', v') :: jSet rest k v

/-- One Zod issue: the offending field and its message. -/
structure Issue where
  path : String
  message : String
deriving DecidableEq

/-- `z.enum(['task_completed', 'task_started', 'task_failed'])`. -/
def taskTypeValues : List String := ["task_completed", "task_started", "task_failed"]

/-- Custom error map on the `type` enum in `TaskEventSchema`. -/
def taskTypeMessage : String :=
  "Tipo de evento debe ser: task_completed, task_started, o task_failed"

/-- Issues for a required `z.string().min(1, msg)` field. -/
def strFieldIssues (args : JObj) (key msg : String) : List Issue :=
  match jGet args key with
  | none => [⟨key, "Required"⟩]
  | some (.str s) => if 1 ≤ s.length then [] else [⟨key, msg⟩]
  | some _ => [⟨key, "Expected string"⟩]

/-- Issues for the `type` field of `TaskEventSchema`: any failure of the
enum schema is reported through its custom error map. -/
def typeFieldIssues (args : JObj) : List Issue :=
  match jGet args "type" with
  | some (.str s) => if taskTypeValues.contains s then [] else [⟨"type", taskTypeMessage⟩]
  | some _ => [⟨"type", taskTypeMessage⟩]
  | none => [⟨"type", taskTypeMessage⟩]

/-- Issues for an optional `z.string().optional()` field. -/
def optStrFieldIssues (args : JObj) (key : String) : List Issue :=
  match jGet args key with
  | none => []
  | some (.str _) => []
  | some _ => [⟨key, "Expected string"⟩]

/-- Issues for the optional `z.record(z.any()).optional()` metadata field. -/
def optObjFieldIssues (args : JObj) (key : String) : List Issue :=
  match jGet args key with
  | none => []
  | some (.obj _) => []
  | some _ => [⟨key, "Expected object"⟩]

/-- Zod's default `z.string().datetime()` shape (no offsets, `Z` suffix,
optional fractional seconds): `YYYY-MM-DDTHH:MM:SS(.d+)?Z`. -/
def moreDigitsZ : List Char → Bool
  | ['Z'] => true
  | c :: rest => c.isDigit && moreDigitsZ rest
  | [] => false

/-- Tail of a datetime string after the seconds: either `Z` or `.d+Z`. -/
def datetimeTail : List Char → Bool
  | ['Z'] => true
  | '.' :: c :: rest => c.isDigit && moreDigitsZ (c :: rest)
  | _ => false

/-- `z.string().datetime()` acceptance on the whole string. -/
def isIsoDatetime (s : String) : Bool :=
  match s.data with
  | y1 :: y2 :: y3 :: y4 :: '-' :: m1 :: m2 :: '-' :: d1 :: d2 :: 'T' ::
      h1 :: h2 :: ':' :: n1 :: n2 :: ':' :: s1 :: s2 :: rest =>
    [y1, y2, y3, y4, m1, m2, d1, d2, h1, h2, n1, n2, s1, s2].all (·.isDigit)
      && datetimeTail rest
  | _ => false

/-- Issues for `requiredBy : z.string().datetime('Fecha requerida ...')`. -/
def requiredByIssues (args : JObj) : List Issue :=
  match jGet args "requiredBy" with
  | none => [⟨"requiredBy", "Required"⟩]
  | some (.str s) =>
    if isIsoDatetime s then [] else [⟨"requiredBy", "Fecha requerida debe ser ISO string válido"⟩]
  | some _ => [⟨"requiredBy", "Expected string"⟩]

/-- Validated `TaskEventSchema` output. -/
structure TaskEventV where
  taskId : String
  type : String
  description : String
  userId : Option String
  metadata : Option JObj

/-- Validated `AuthorizationRequestSchema` output. -/
structure AuthRequestV where
  taskId : String
  action : String
  description : String
  userId : Option String
  requiredBy : String
  metadata : Option JObj

/-- All issues `TaskEventSchema.parse` collects, in shape order. -/
def taskEventIssues (args : JObj) : List Issue :=
  strFieldIssues args "taskId" "Task ID es requerido"
    ++ typeFieldIssues args
    ++ strFieldIssues args "description" "Descripción es requerida"
    ++ optStrFieldIssues args "userId"
    ++ optObjFieldIssues args "metadata"

/-- All issues `AuthorizationRequestSchema.parse` collects, in shape order. -/
def authRequestIssues (args : JObj) : List Issue :=
  strFieldIssues args "taskId" "Task ID es requerido"
    ++ strFieldIssues args "action" "Acción es requerida"
    ++ strFieldIssues args "description" "Descripción es requerida"
    ++ optStrFieldIssues args "userId"
    ++ requiredByIssues args
    ++ optObjFieldIssues args "metadata"

/-- Read a field already known to be a string (used only when no issues). -/
def getStrD (args : JObj) (key : String) : String :=
  match jGet args key with
  | some (.str s) => s
  | _ => ""

/-- Read an optional string field. -/
def getOptStr (args : JObj) (key : String) : Option String :=
  match jGet args key with
  | some (.str s) => some s
  | _ => none

/-- Read the optional metadata object field. -/
def getOptObj (args : JObj) (key : String) : Option JObj :=
  match jGet args key with
  | some (.obj m) => some m
  | _ => none

/-- `TaskEventSchema.parse(args)`: all-or-nothing, collecting every issue. -/
def parseTaskEvent (args : JObj) : Except (List Issue) TaskEventV :=
  if (taskEventIssues args).isEmpty then
    .ok ⟨getStrD args "taskId", getStrD args "type", getStrD args "description",
         getOptStr args "userId", getOptObj args "metadata"⟩
  else .error (taskEventIssues args)

/-- `AuthorizationRequestSchema.parse(args)`. -/
def parseAuthRequest (args : JObj) : Except (List Issue) AuthRequestV :=
  if (authRequestIssues args).isEmpty then
    .ok ⟨getStrD args "taskId", getStrD args "action", getStrD args "description",
         getOptStr args "userId", getStrD args "requiredBy", getOptObj args "metadata"⟩
  else .error (authRequestIssues args)

/-- The configuration fields the relay logic reads. -/
structure Config where
  userId : String
  sourceName : String

/-- The default configuration built from the source's env-var fallbacks. -/
def cfg0 : Config := ⟨"687a8418096ca32b8c045cf8", "trae-mcp-monitor"⟩

/-- JS `x || d` for an optional string: `undefined` and `""` are falsy. -/
def jsOrDefault (u : Option String) (d : String) : String :=
  match u with
  | some s => if s = "" then d else s
  | none => d

/-- `{...meta, source: src, timestamp: now}` (injected fields win on collision). -/
def mergeMeta (m : JObj) (src now : String) : JObj :=
  jSet (jSet m "source" (.str src)) "timestamp" (.str now)

/-- A wire frame: `{type, payload}`. -/
structure WSMessage where
  type : String
  payload : JObj

/-- The `task_event` envelope `sendTaskEvent` constructs. -/
def buildTaskEventMsg (cfg : Config) (now : String) (v : TaskEventV) : WSMessage :=
  { type := "task_event",
    payload := [
      ("taskId", .str v.taskId),
      ("type", .str v.type),
      ("description", .str v.description),
      ("userId", .str (jsOrDefault v.userId cfg.userId)),
      ("metadata", .obj (mergeMeta (v.metadata.getD []) cfg.sourceName now))] }

/-- The injected request id: the literal `auth-` followed by `Date.now()`
rendered in decimal (the current millisecond timestamp). -/
def requestIdFor (nowMs : Nat) : String := "auth-" ++ Nat.repr nowMs

/-- The `authorization_request` envelope `requestAuthorization` constructs. -/
def buildAuthMsg (cfg : Config) (nowMs : Nat) (now : String) (v : AuthRequestV) : WSMessage :=
  { type := "authorization_request",
    payload := [
      ("requestId", .str (requestIdFor nowMs)),
      ("taskId", .str v.taskId),
      ("action", .str v.action),
      ("description", .str v.description),
      ("userId", .str (jsOrDefault v.userId cfg.userId)),
      ("requiredBy", .str v.requiredBy),
      ("metadata", .obj (mergeMeta (v.metadata.getD []) cfg.sourceName now))] }

/-- How a tool call fails: a Zod validation error, or the fail-fast throw
`Monitor no conectado. Verificar conexión WebSocket.` -/
inductive ToolError where
  | validation (issues : List Issue)
  | notConnected

/-- `sendTaskEvent(args)`: validate, build the envelope, then send it only
if the socket is currently OPEN; otherwise throw without buffering. -/
def sendTaskEventRun (cfg : Config) (connected : Bool) (now : String) (args : JObj) :
    Except ToolError (WSMessage × String) :=
  match parseTaskEvent args with
  | .error issues => .error (.validation issues)
  | .ok v =>
    let event := buildTaskEventMsg cfg now v
    if connected then
      .ok (event, "✅ Evento de tarea enviado: " ++ v.type ++ " para tarea " ++ v.taskId)
    else .error .notConnected

/-- `requestAuthorization(args)`. -/
def requestAuthorizationRun (cfg : Config) (connected : Bool) (nowMs : Nat) (now : String)
    (args : JObj) : Except ToolError (WSMessage × String) :=
  match parseAuthRequest args with
  | .error issues => .error (.validation issues)
  | .ok v =>
    let request := buildAuthMsg cfg nowMs now v
    if connected then
      .ok (request, "🔐 Solicitud de autorización enviada: " ++ v.action ++ " para tarea " ++ v.taskId)
    else .error .notConnected

/-! ### Connection manager (class state + WebSocket event handlers) -/

/-- `ws` readyState values the code distinguishes (`isWebSocketConnected`
tests `=== WebSocket.OPEN` only). -/
inductive ReadyState where
  | connecting
  | opened
  | closed
deriving DecidableEq

/-- The current `monitorWs` socket, with the frames written to it. -/
structure SocketSt where
  readyState : ReadyState
  framesSent : List WSMessage

/-- Mutable fields of `TraeMcpMonitor` the connection logic touches, plus an
event log of the backoff delays passed to `setTimeout` and a count of
scheduled-but-not-yet-fired reconnect timers. -/
structure CMState where
  monitorWs : Option SocketSt
  reconnectAttempts : Nat
  isShuttingDown : Bool
  pendingTimers : Nat
  scheduledDelays : List Nat

/-- `this.maxReconnectAttempts = 10`. -/
def maxReconnectAttempts : Nat := 10

/-- `this.reconnectDelay = 5000`. -/
def reconnectDelay : Nat := 5000

/-- `scheduleReconnect()`: bail out when shutting down; increment the
counter; give up past the maximum; otherwise set a timer for
`min(reconnectDelay * attempts, 30000)` ms. -/
def scheduleReconnect (s : CMState) : CMState :=
  if s.isShuttingDown then s
  else if s.reconnectAttempts + 1 > maxReconnectAttempts then
    { s with reconnectAttempts := s.reconnectAttempts + 1 }
  else
    { s with reconnectAttempts := s.reconnectAttempts + 1,
             pendingTimers := s.pendingTimers + 1,
             scheduledDelays := s.scheduledDelays
               ++ [min (reconnectDelay * (s.reconnectAttempts + 1)) 30000] }

/-- `isWebSocketConnected()`: socket present and readyState OPEN. -/
def isWebSocketConnected : Option SocketSt → Bool
  | some ⟨.opened, _⟩ => true
  | _ => false

/-- The identification frame sent from the `open` handler. -/
def identifyMessage (cfg : Config) (now : String) : WSMessage :=
  { type := "mcp_client_identify",
    payload := [
      ("clientId", .str cfg.sourceName),
      ("version", .str "1.0.0"),
      ("capabilities", .arr [.str "task_events", .str "authorization_requests"]),
      ("timestamp", .str now)] }

/-- `connectToMonitor()`: no-op when shutting down; `new WebSocket(url)`
either throws synchronously (then `scheduleReconnect`, `monitorWs` keeps its
old value) or replaces `monitorWs` with a fresh CONNECTING socket. The
pending-timer count is untouched: the code stores no timer handle and
cancels nothing. -/
def connectToMonitor (s : CMState) (ctorThrows : Bool) : CMState :=
  if s.isShuttingDown then s
  else if ctorThrows then scheduleReconnect s
  else { s with monitorWs := some ⟨.connecting, []⟩ }

/-- Append a frame to the current socket (a successful `send`). -/
def appendFrame (s : CMState) (m : WSMessage) : CMState :=
  { s with monitorWs := s.monitorWs.map (fun sk => ⟨sk.readyState, sk.framesSent ++ [m]⟩) }

/-- External events the process reacts to: the WebSocket handlers, timer
expiry, a fresh externally-triggered `connectToMonitor()` call, graceful
shutdown, and the two tool calls. Clock readings are event data. -/
inductive Act where
  | wsOpen (now : String)
  | wsClose
  | wsError
  | wsInbound
  | timerFire (ctorThrows : Bool)
  | externalConnect (ctorThrows : Bool)
  | shutdown
  | callTaskEvent (now : String) (args : JObj)
  | callRequestAuthorization (nowMs : Nat) (now : String) (args : JObj)

/-- Whether an action is the externally-injected fresh `connectToMonitor()`
call (the code itself has no such caller). -/
def Act.isExternalConnect : Act → Bool
  | .externalConnect _ => true
  | _ => false

/-- One event-loop step of the system. `wsOpen` fires on a CONNECTING
socket: reset the attempt counter and send the identification frame.
`wsClose` fires once on a not-yet-closed socket and schedules a reconnect.
`wsError` and inbound messages are only logged. A firing timer runs
`connectToMonitor`. `shutdown` sets the flag and closes the socket (the
resulting close event is suppressed by the flag). Tool calls append their
envelope only when the run succeeds; a thrown error changes nothing. -/
def step (cfg : Config) (s : CMState) (a : Act) : CMState :=
  match a with
  | .wsOpen now =>
    match s.monitorWs with
    | some sk =>
      if sk.readyState = .connecting then
        { s with reconnectAttempts := 0,
                 monitorWs := some ⟨.opened, sk.framesSent ++ [identifyMessage cfg now]⟩ }
      else s
    | none => s
  | .wsClose =>
    match s.monitorWs with
    | some sk =>
      if sk.readyState = .closed then s
      else scheduleReconnect { s with monitorWs := some ⟨.closed, sk.framesSent⟩ }
    | none => s
  | .wsError => s
  | .wsInbound => s
  | .timerFire ct =>
    if s.pendingTimers = 0 then s
    else connectToMonitor { s with pendingTimers := s.pendingTimers - 1 } ct
  | .externalConnect ct => connectToMonitor s ct
  | .shutdown =>
    { s with isShuttingDown := true,
             monitorWs := s.monitorWs.map (fun sk => ⟨.closed, sk.framesSent⟩) }
  | .callTaskEvent now args =>
    match sendTaskEventRun cfg (isWebSocketConnected s.monitorWs) now args with
    | .ok (msg, _) => appendFrame s msg
    | .error _ => s
  | .callRequestAuthorization nowMs now args =>
    match requestAuthorizationRun cfg (isWebSocketConnected s.monitorWs) nowMs now args with
    | .ok (msg, _) => appendFrame s msg
    | .error _ => s

/-- State right after the constructor ran `connectToMonitor()`. -/
def initState : CMState :=
  connectToMonitor ⟨none, 0, false, 0, []⟩ false

/-- Run a sequence of events. -/
def run (cfg : Config) (s : CMState) : List Act → CMState
  | [] => s
  | a :: rest => run cfg (step cfg s a) rest

/-- One failed connection attempt: the pending socket closes (scheduling a
reconnect when allowed) and, if a timer was set, it fires and reconnects. -/
def failStep (cfg : Config) (s : CMState) : CMState :=
  step cfg (step cfg s .wsClose) (.timerFire false)

/-- The system after `n` consecutive failed connection attempts starting
from the freshly-constructed state. -/
def afterFailures (cfg : Config) : Nat → CMState
  | 0 => initState
  | n + 1 => failStep cfg (afterFailures cfg n)

/-- The delays the spec predicts for `n` scheduled backoff cycles. -/
def predictedDelays (n : Nat) : List Nat :=
  (List.range n).map (fun k => min (reconnectDelay * (k + 1)) 30000)

/-- Reachability under every event, including external `connect()` calls. -/
inductive Reachable (cfg : Config) : CMState → Prop where
  | init : Reachable cfg initState
  | next {s : CMState} : Reachable cfg s → ∀ a : Act, Reachable cfg (step cfg s a)

/-- Reachability in the closed system: `connectToMonitor` runs only from
the constructor and from timer expiry, never from outside. -/
inductive ClosedReachable (cfg : Config) : CMState → Prop where
  | init : ClosedReachable cfg initState
  | next {s : CMState} : ClosedReachable cfg s → ∀ a : Act,
      a.isExternalConnect = false → ClosedReachable cfg (step cfg s a)

/-- The socket is absent or fully closed. -/
def socketDown : Option SocketSt → Bool
  | none => true
  | some ⟨.closed, _⟩ => true
  | some _ => false

/-- The manager has given up: the counter passed the maximum, no timer is
pending, and the socket is down. -/
def GivenUp (s : CMState) : Prop :=
  maxReconnectAttempts < s.reconnectAttempts ∧ s.pendingTimers = 0 ∧
    socketDown s.monitorWs = true

/-- The `type` argument fails the enum schema (missing, non-string, or not
one of the three task event kinds). -/
def typeBad (args : JObj) : Bool :=
  match jGet args "type" with
  | some (.str s) => !(taskTypeValues.contains s)
  | some _ => true
  | none => true

/-- The `requiredBy` argument fails `z.string().datetime()`. -/
def requiredByBad (args : JObj) : Bool :=
  match jGet args "requiredBy" with
  | some (.str s) => !(isIsoDatetime s)
  | some _ => true
  | none => true

/-- A task-event input missing a required field or with a malformed type. -/
def taskInputBad (args : JObj) : Bool :=
  (jGet args "taskId").isNone || (jGet args "description").isNone || typeBad args

/-- An authorization input missing a required field or with a malformed
`requiredBy`. -/
def authInputBad (args : JObj) : Bool :=
  (jGet args "taskId").isNone || (jGet args "action").isNone ||
    (jGet args "description").isNone || requiredByBad args

/-- Arguments shaped exactly like the input schema the HTTP `/mcp`
endpoint advertises for `send_task_event` in its own `tools/list` response:
`event_type` (from its enum), `task_id`, `message` — and none of the
`taskId`/`type`/`description` fields the Zod schema actually requires. -/
def conformsHttpTaskSchema (args : JObj) : Bool :=
  (match jGet args "event_type" with
   | some (.str s) => ["task_start", "task_progress", "task_complete", "task_error"].contains s
   | _ => false)
  && (match jGet args "task_id" with | some (.str _) => true | _ => false)
  && (match jGet args "message" with | some (.str _) => true | _ => false)
  && (jGet args "taskId").isNone && (jGet args "type").isNone
  && (jGet args "description").isNone

/-- Decimal digits of `n` as characters, most significant first. -/
def decChars (n : Nat) : List Char :=
  if _h : n < 10 then [Nat.digitChar n]
  else decChars (n / 10) ++ [Nat.digitChar (n % 10)]
decreasing_by exact Nat.div_lt_self (by omega) (by omega)

/-- Numeric value of a decimal digit character. -/
def digitVal (c : Char) : Nat := c.toNat - '0'.toNat

/-- Value of a most-significant-first decimal digit string. -/
def decVal (l : List Char) : Nat := l.foldl (fun acc c => acc * 10 + digitVal c) 0

/-- At most one reconnect timer, and a pending timer only with the socket
down (the strengthened induction invariant). -/
def TimerInv (s : CMState) : Prop :=
  s.pendingTimers ≤ 1 ∧ (s.pendingTimers = 1 → socketDown s.monitorWs = true)

/-- How many identification frames a frame list holds. -/
def identifyCount (l : List WSMessage) : Nat :=
  l.countP (fun m => m.type == "mcp_client_identify")

/-- Per-socket invariant: a CONNECTING socket has sent nothing, an OPEN
socket has sent something, and any nonempty frame log starts with the
identification frame and holds exactly one of them. -/
def SockOk (cfg : Config) (sk : SocketSt) : Prop :=
  (sk.readyState = .connecting → sk.framesSent = [])
  ∧ (sk.readyState = .opened → sk.framesSent ≠ [])
  ∧ (sk.framesSent ≠ [] →
      (∃ now, sk.framesSent.head? = some (identifyMessage cfg now))
      ∧ identifyCount sk.framesSent = 1)

/-! ### Decimal rendering: `Nat.repr` is injective (for requestId reasoning) -/


lemma decChars_lt {n : Nat} (h : n < 10) : decChars n = [Nat.digitChar n] := by
  rw [decChars]; simp [h]

lemma decChars_ge {n : Nat} (h : 10 ≤ n) :
    decChars n = decChars (n / 10) ++ [Nat.digitChar (n % 10)] := by
  rw [decChars]; simp [Nat.not_lt.mpr h]

lemma toDigitsCore_eq_decChars (n : Nat) : ∀ f l, n < f →
    Nat.toDigitsCore 10 f n l = decChars n ++ l := by
  induction n using Nat.strong_induction_on with
  | _ n ih =>
    intro f l hf
    match f, hf with
    | f + 1, _ =>
      by_cases h : n < 10
      · have hdiv : n / 10 = 0 := Nat.div_eq_of_lt h
        simp [Nat.toDigitsCore, hdiv, decChars_lt h, Nat.mod_eq_of_lt h]
      · have h10 : 10 ≤ n := Nat.not_lt.mp h
        have hdiv : ¬ n / 10 = 0 := by
          have : 1 ≤ n / 10 := (Nat.one_le_div_iff (by omega)).mpr h10
          omega
        have hlt : n / 10 < n := Nat.div_lt_self (by omega) (by omega)
        have hfuel : n / 10 < f := by omega
        simp only [Nat.toDigitsCore, hdiv, if_false]
        rw [ih (n / 10) hlt f (Nat.digitChar (n % 10) :: l) hfuel, decChars_ge h10,
          List.append_assoc]
        rfl

lemma repr_eq_decChars (n : Nat) : Nat.repr n = (decChars n).asString := by
  show (Nat.toDigits 10 n).asString = (decChars n).asString
  unfold Nat.toDigits
  rw [toDigitsCore_eq_decChars n (n + 1) [] (Nat.lt_succ_self n), List.append_nil]



lemma digitVal_digitChar : ∀ d : Nat, d < 10 → digitVal (Nat.digitChar d) = d := by decide

lemma decVal_append_singleton (l : List Char) (c : Char) :
    decVal (l ++ [c]) = decVal l * 10 + digitVal c := by
  unfold decVal; rw [List.foldl_append]; rfl

lemma decVal_decChars : ∀ n : Nat, decVal (decChars n) = n := by
  intro n
  induction n using Nat.strong_induction_on with
  | _ n ih =>
    by_cases h : n < 10
    · rw [decChars_lt h]
      show 0 * 10 + digitVal (Nat.digitChar n) = n
      rw [digitVal_digitChar n h]; omega
    · have h10 : 10 ≤ n := Nat.not_lt.mp h
      have hlt : n / 10 < n := Nat.div_lt_self (by omega) (by omega)
      rw [decChars_ge h10, decVal_append_singleton, ih (n / 10) hlt,
        digitVal_digitChar (n % 10) (Nat.mod_lt n (by omega))]
      omega

lemma decChars_injective : Function.Injective decChars := by
  intro a b h
  have h2 := congrArg decVal h
  rwa [decVal_decChars, decVal_decChars] at h2

lemma natRepr_injective : Function.Injective Nat.repr := by
  intro a b h
  rw [repr_eq_decChars, repr_eq_decChars] at h
  exact decChars_injective (congrArg String.data h)

lemma string_append_data (s t : String) : (s ++ t).data = s.data ++ t.data := by
  cases s; cases t; rfl

lemma requestIdFor_injective : Function.Injective requestIdFor := by
  intro a b h
  unfold requestIdFor at h
  have hd := congrArg String.data h
  rw [string_append_data, string_append_data] at hd
  have hr : (Nat.repr a).data = (Nat.repr b).data := by
    exact List.append_cancel_left hd
  have : Nat.repr a = Nat.repr b := by
    cases hra : Nat.repr a with
    | mk da =>
      cases hrb : Nat.repr b with
      | mk db =>
        rw [hra, hrb] at hr
        exact congrArg String.mk (by simpa using hr)
  exact natRepr_injective this

/-! ### Object lookup/update lemmas -/

lemma jGet_jSet_self (m : JObj) (k : String) (v : Json) : jGet (jSet m k v) k = some v := by
  induction m with
  | nil => simp [jSet, jGet]
  | cons p rest ih =>
    obtain ⟨k', v'⟩ := p
    by_cases h : k' = k
    · simp [jSet, jGet, h]
    · simp [jSet, jGet, h, ih]

lemma jGet_jSet_ne (m : JObj) {k k' : String} (v : Json) (h : k' ≠ k) :
    jGet (jSet m k' v) k = jGet m k := by
  induction m with
  | nil => simp [jSet, jGet, h]
  | cons p rest ih =>
    obtain ⟨k0, v0⟩ := p
    by_cases h0 : k0 = k'
    · subst h0
      simp [jSet, jGet, h]
    · by_cases h1 : k0 = k
      · subst h1
        simp [jSet, jGet, h0]
      · simp [jSet, jGet, h0, h1, ih]

lemma mergeMeta_source (m : JObj) (src now : String) :
    jGet (mergeMeta m src now) "source" = some (.str src) := by
  unfold mergeMeta
  rw [jGet_jSet_ne _ _ (by decide), jGet_jSet_self]

lemma mergeMeta_timestamp (m : JObj) (src now : String) :
    jGet (mergeMeta m src now) "timestamp" = some (.str now) := jGet_jSet_self _ _ _

/-! ### Helper lemmas about the tool pipelines -/

lemma isEmpty_false_of_ne_nil {α : Type} {l : List α} (h : l ≠ []) : l.isEmpty = false := by
  cases l with
  | nil => exact absurd rfl h
  | cons a t => rfl

lemma parseTaskEvent_error {args : JObj} (h : taskEventIssues args ≠ []) :
    parseTaskEvent args = .error (taskEventIssues args) := by
  unfold parseTaskEvent
  rw [isEmpty_false_of_ne_nil h]
  rfl

lemma parseAuthRequest_error {args : JObj} (h : authRequestIssues args ≠ []) :
    parseAuthRequest args = .error (authRequestIssues args) := by
  unfold parseAuthRequest
  rw [isEmpty_false_of_ne_nil h]
  rfl

lemma sendTaskEventRun_of_parse_error {args : JObj} {issues : List Issue}
    (h : parseTaskEvent args = .error issues) (cfg : Config) (c : Bool) (now : String) :
    sendTaskEventRun cfg c now args = .error (.validation issues) := by
  unfold sendTaskEventRun; rw [h]

lemma requestAuthorizationRun_of_parse_error {args : JObj} {issues : List Issue}
    (h : parseAuthRequest args = .error issues) (cfg : Config) (c : Bool) (nowMs : Nat)
    (now : String) :
    requestAuthorizationRun cfg c nowMs now args = .error (.validation issues) := by
  unfold requestAuthorizationRun; rw [h]

lemma sendTaskEventRun_ok {args : JObj} {v : TaskEventV}
    (h : parseTaskEvent args = .ok v) (cfg : Config) (now : String) :
    sendTaskEventRun cfg true now args =
      .ok (buildTaskEventMsg cfg now v,
        "✅ Evento de tarea enviado: " ++ v.type ++ " para tarea " ++ v.taskId) := by
  unfold sendTaskEventRun; rw [h]; rfl

lemma requestAuthorizationRun_ok {args : JObj} {v : AuthRequestV}
    (h : parseAuthRequest args = .ok v) (cfg : Config) (nowMs : Nat) (now : String) :
    requestAuthorizationRun cfg true nowMs now args =
      .ok (buildAuthMsg cfg nowMs now v,
        "🔐 Solicitud de autorización enviada: " ++ v.action ++ " para tarea " ++ v.taskId) := by
  unfold requestAuthorizationRun; rw [h]; rfl

lemma sendTaskEventRun_disconnected {args : JObj} {v : TaskEventV}
    (h : parseTaskEvent args = .ok v) (cfg : Config) (now : String) :
    sendTaskEventRun cfg false now args = .error .notConnected := by
  unfold sendTaskEventRun; rw [h]; rfl

lemma requestAuthorizationRun_disconnected {args : JObj} {v : AuthRequestV}
    (h : parseAuthRequest args = .ok v) (cfg : Config) (nowMs : Nat) (now : String) :
    requestAuthorizationRun cfg false nowMs now args = .error .notConnected := by
  unfold requestAuthorizationRun; rw [h]; rfl

lemma sendTaskEventRun_false_ne_ok (cfg : Config) (now : String) (args : JObj) :
    ∀ r, sendTaskEventRun cfg false now args ≠ .ok r := by
  intro r
  unfold sendTaskEventRun
  cases parseTaskEvent args <;> simp

lemma requestAuthorizationRun_false_ne_ok (cfg : Config) (nowMs : Nat) (now : String)
    (args : JObj) : ∀ r, requestAuthorizationRun cfg false nowMs now args ≠ .ok r := by
  intro r
  unfold requestAuthorizationRun
  cases parseAuthRequest args <;> simp

lemma step_callTaskEvent_of_error {cfg : Config} {s : CMState} {now : String} {args : JObj}
    {e : ToolError}
    (h : sendTaskEventRun cfg (isWebSocketConnected s.monitorWs) now args = .error e) :
    step cfg s (.callTaskEvent now args) = s := by
  simp only [step]
  rw [h]

lemma step_callAuth_of_error {cfg : Config} {s : CMState} {nowMs : Nat} {now : String}
    {args : JObj} {e : ToolError}
    (h : requestAuthorizationRun cfg (isWebSocketConnected s.monitorWs) nowMs now args
        = .error e) :
    step cfg s (.callRequestAuthorization nowMs now args) = s := by
  simp only [step]
  rw [h]


lemma strFieldIssues_missing {args : JObj} {key : String} (msg : String)
    (h : jGet args key = none) : strFieldIssues args key msg = [⟨key, "Required"⟩] := by
  unfold strFieldIssues; rw [h]

lemma strFieldIssues_ok {args : JObj} {key : String} (msg : String) {s : String}
    (h : jGet args key = some (.str s)) (hl : 1 ≤ s.length) :
    strFieldIssues args key msg = [] := by
  unfold strFieldIssues; rw [h]; simp [hl]

lemma typeFieldIssues_of_bad {args : JObj} (h : typeBad args = true) :
    typeFieldIssues args = [⟨"type", taskTypeMessage⟩] := by
  unfold typeBad at h
  unfold typeFieldIssues
  cases hj : jGet args "type" with
  | none => rfl
  | some j =>
    rw [hj] at h
    cases j with
    | str s =>
      simp only [Bool.not_eq_true'] at h
      exact if_neg (by rw [h]; exact Bool.false_ne_true)
    | num n => rfl
    | boolean b => rfl
    | null => rfl
    | arr xs => rfl
    | obj fields => rfl

lemma typeFieldIssues_ok {args : JObj} {s : String} (h : jGet args "type" = some (.str s))
    (hc : taskTypeValues.contains s = true) : typeFieldIssues args = [] := by
  unfold typeFieldIssues; rw [h]; exact if_pos hc

lemma optStrFieldIssues_missing {args : JObj} {key : String} (h : jGet args key = none) :
    optStrFieldIssues args key = [] := by
  unfold optStrFieldIssues; rw [h]

lemma optStrFieldIssues_str {args : JObj} {key s : String}
    (h : jGet args key = some (.str s)) : optStrFieldIssues args key = [] := by
  unfold optStrFieldIssues; rw [h]

lemma optObjFieldIssues_missing {args : JObj} {key : String} (h : jGet args key = none) :
    optObjFieldIssues args key = [] := by
  unfold optObjFieldIssues; rw [h]

lemma optObjFieldIssues_obj {args : JObj} {key : String} {m : JObj}
    (h : jGet args key = some (.obj m)) : optObjFieldIssues args key = [] := by
  unfold optObjFieldIssues; rw [h]

lemma requiredByIssues_missing {args : JObj} (h : jGet args "requiredBy" = none) :
    requiredByIssues args = [⟨"requiredBy", "Required"⟩] := by
  unfold requiredByIssues; rw [h]

lemma requiredByIssues_badDatetime {args : JObj} {s : String}
    (h : jGet args "requiredBy" = some (.str s)) (hd : isIsoDatetime s = false) :
    requiredByIssues args = [⟨"requiredBy", "Fecha requerida debe ser ISO string válido"⟩] := by
  unfold requiredByIssues; rw [h]; simp [hd]

lemma requiredByIssues_ok {args : JObj} {s : String}
    (h : jGet args "requiredBy" = some (.str s)) (hd : isIsoDatetime s = true) :
    requiredByIssues args = [] := by
  unfold requiredByIssues; rw [h]; simp [hd]

lemma requiredByIssues_ne_nil {args : JObj} (h : requiredByBad args = true) :
    requiredByIssues args ≠ [] := by
  unfold requiredByBad at h
  unfold requiredByIssues
  cases hj : jGet args "requiredBy" with
  | none => simp
  | some j =>
    rw [hj] at h
    cases j with
    | str s =>
      simp only [Bool.not_eq_true'] at h
      simp [h]
    | num n => simp
    | boolean b => simp
    | null => simp
    | arr xs => simp
    | obj fields => simp

lemma taskEventIssues_ne_nil {args : JObj} (h : taskInputBad args = true) :
    taskEventIssues args ≠ [] := by
  unfold taskInputBad at h
  simp only [Bool.or_eq_true, Option.isNone_iff_eq_none] at h
  unfold taskEventIssues
  rcases h with (h | h) | h
  · rw [strFieldIssues_missing _ h]
    simp
  · rw [strFieldIssues_missing _ h]
    simp
  · rw [typeFieldIssues_of_bad h]
    simp

lemma authRequestIssues_ne_nil {args : JObj} (h : authInputBad args = true) :
    authRequestIssues args ≠ [] := by
  unfold authInputBad at h
  simp only [Bool.or_eq_true, Option.isNone_iff_eq_none] at h
  unfold authRequestIssues
  rcases h with ((h | h) | h) | h
  · rw [strFieldIssues_missing _ h]
    simp
  · rw [strFieldIssues_missing _ h]
    simp
  · rw [strFieldIssues_missing _ h]
    simp
  · intro hc
    rcases List.append_eq_nil.mp hc with ⟨hc1, -⟩
    rcases List.append_eq_nil.mp hc1 with ⟨hc2, hreq⟩
    exact requiredByIssues_ne_nil h hreq

lemma mem_taskEventIssues_taskId {args : JObj} (h : jGet args "taskId" = none) :
    (⟨"taskId", "Required"⟩ : Issue) ∈ taskEventIssues args := by
  unfold taskEventIssues
  rw [strFieldIssues_missing _ h]
  simp

lemma mem_taskEventIssues_type {args : JObj} (h : jGet args "type" = none) :
    (⟨"type", taskTypeMessage⟩ : Issue) ∈ taskEventIssues args := by
  unfold taskEventIssues
  rw [typeFieldIssues_of_bad (by unfold typeBad; rw [h])]
  simp

lemma mem_taskEventIssues_description {args : JObj} (h : jGet args "description" = none) :
    (⟨"description", "Required"⟩ : Issue) ∈ taskEventIssues args := by
  unfold taskEventIssues
  rw [strFieldIssues_missing _ h]
  simp

lemma mem_authRequestIssues_taskId {args : JObj} (h : jGet args "taskId" = none) :
    (⟨"taskId", "Required"⟩ : Issue) ∈ authRequestIssues args := by
  unfold authRequestIssues
  rw [strFieldIssues_missing _ h]
  simp

lemma mem_authRequestIssues_action {args : JObj} (h : jGet args "action" = none) :
    (⟨"action", "Required"⟩ : Issue) ∈ authRequestIssues args := by
  unfold authRequestIssues
  rw [strFieldIssues_missing _ h]
  simp

lemma mem_authRequestIssues_description {args : JObj} (h : jGet args "description" = none) :
    (⟨"description", "Required"⟩ : Issue) ∈ authRequestIssues args := by
  unfold authRequestIssues
  rw [strFieldIssues_missing _ h]
  simp

lemma mem_authRequestIssues_requiredBy_missing {args : JObj}
    (h : jGet args "requiredBy" = none) :
    (⟨"requiredBy", "Required"⟩ : Issue) ∈ authRequestIssues args := by
  unfold authRequestIssues
  rw [requiredByIssues_missing h]
  simp

lemma mem_authRequestIssues_requiredBy_malformed {args : JObj} {s : String}
    (h : jGet args "requiredBy" = some (.str s)) (hd : isIsoDatetime s = false) :
    (⟨"requiredBy", "Fecha requerida debe ser ISO string válido"⟩ : Issue)
      ∈ authRequestIssues args := by
  unfold authRequestIssues
  rw [requiredByIssues_badDatetime h hd]
  simp

lemma buildTaskEventMsg_userId (cfg : Config) (now : String) (v : TaskEventV) :
    jGet (buildTaskEventMsg cfg now v).payload "userId"
      = some (.str (jsOrDefault v.userId cfg.userId)) := rfl

lemma buildTaskEventMsg_metadata (cfg : Config) (now : String) (v : TaskEventV) :
    jGet (buildTaskEventMsg cfg now v).payload "metadata"
      = some (.obj (mergeMeta (v.metadata.getD []) cfg.sourceName now)) := rfl

lemma buildAuthMsg_userId (cfg : Config) (nowMs : Nat) (now : String) (v : AuthRequestV) :
    jGet (buildAuthMsg cfg nowMs now v).payload "userId"
      = some (.str (jsOrDefault v.userId cfg.userId)) := rfl

lemma buildAuthMsg_requestId (cfg : Config) (nowMs : Nat) (now : String) (v : AuthRequestV) :
    jGet (buildAuthMsg cfg nowMs now v).payload "requestId"
      = some (.str (requestIdFor nowMs)) := rfl

lemma buildAuthMsg_metadata (cfg : Config) (nowMs : Nat) (now : String) (v : AuthRequestV) :
    jGet (buildAuthMsg cfg nowMs now v).payload "metadata"
      = some (.obj (mergeMeta (v.metadata.getD []) cfg.sourceName now)) := rfl

/-! ### Claim theorems -/

/-- C2: for a validated input, the send step of `sendTaskEvent` /
`requestAuthorization` throws the not-connected error exactly when the
connection is not Ready (socket absent or readyState not OPEN) at call
time; when not Ready nothing is buffered (the system state is unchanged),
and success occurs only when Ready at call time. -/
theorem c2_send_fails_iff_not_ready
    (cfg : Config) (ws : Option SocketSt) (now : String) (nowMs : Nat)
    (argsT argsA : JObj) (v : TaskEventV) (w : AuthRequestV)
    (hv : parseTaskEvent argsT = .ok v) (hw : parseAuthRequest argsA = .ok w) :
    (isWebSocketConnected ws = true ↔ ∃ sk, ws = some sk ∧ sk.readyState = .opened)
    ∧ (sendTaskEventRun cfg (isWebSocketConnected ws) now argsT = .error .notConnected
        ↔ isWebSocketConnected ws = false)
    ∧ (∀ r, sendTaskEventRun cfg (isWebSocketConnected ws) now argsT = .ok r →
        isWebSocketConnected ws = true)
    ∧ (requestAuthorizationRun cfg (isWebSocketConnected ws) nowMs now argsA
          = .error .notConnected ↔ isWebSocketConnected ws = false)
    ∧ (∀ r, requestAuthorizationRun cfg (isWebSocketConnected ws) nowMs now argsA = .ok r →
        isWebSocketConnected ws = true)
    ∧ (∀ s : CMState, s.monitorWs = ws → isWebSocketConnected ws = false →
        step cfg s (.callTaskEvent now argsT) = s
          ∧ step cfg s (.callRequestAuthorization nowMs now argsA) = s) := by
  refine ⟨?_, ?_, ?_, ?_, ?_, ?_⟩
  · cases ws with
    | none => simp [isWebSocketConnected]
    | some sk =>
      obtain ⟨rs, frames⟩ := sk
      cases rs with
      | connecting => simp [isWebSocketConnected]
      | opened =>
        simp only [isWebSocketConnected]
        constructor
        · intro _
          exact ⟨⟨.opened, frames⟩, rfl, rfl⟩
        · intro _
          trivial
      | closed => simp [isWebSocketConnected]
  · cases hb : isWebSocketConnected ws
    · simp [sendTaskEventRun_disconnected hv]
    · rw [sendTaskEventRun_ok hv]
      simp
  · intro r hr
    cases hb : isWebSocketConnected ws
    · rw [hb] at hr
      exact absurd hr (sendTaskEventRun_false_ne_ok cfg now argsT r)
    · rfl
  · cases hb : isWebSocketConnected ws
    · simp [requestAuthorizationRun_disconnected hw]
    · rw [requestAuthorizationRun_ok hw]
      simp
  · intro r hr
    cases hb : isWebSocketConnected ws
    · rw [hb] at hr
      exact absurd hr (requestAuthorizationRun_false_ne_ok cfg nowMs now argsA r)
    · rfl
  · intro s hms hnc
    have h1 : sendTaskEventRun cfg (isWebSocketConnected s.monitorWs) now argsT
        = .error .notConnected := by
      rw [hms, hnc]
      exact sendTaskEventRun_disconnected hv cfg now
    have h2 : requestAuthorizationRun cfg (isWebSocketConnected s.monitorWs) nowMs now argsA
        = .error .notConnected := by
      rw [hms, hnc]
      exact requestAuthorizationRun_disconnected hw cfg nowMs now
    exact ⟨step_callTaskEvent_of_error h1, step_callAuth_of_error h2⟩

/-- Witness for C2 at concrete inputs: with no socket, a validated task
event fails with the not-connected error. -/
theorem c2_witness :
    sendTaskEventRun cfg0 (isWebSocketConnected none) "2025-06-01T00:00:00Z"
        [("taskId", Json.str "t1"), ("type", Json.str "task_started"),
         ("description", Json.str "d")]
      = .error .notConnected := by
  have h := c2_send_fails_iff_not_ready cfg0 none "2025-06-01T00:00:00Z" 1700000000000
      [("taskId", Json.str "t1"), ("type", Json.str "task_started"),
       ("description", Json.str "d")]
      [("taskId", Json.str "t1"), ("action", Json.str "deploy"),
       ("description", Json.str "go"), ("requiredBy", Json.str "2025-01-01T00:00:00Z")]
      ⟨"t1", "task_started", "d", none, none⟩
      ⟨"t1", "deploy", "go", none, "2025-01-01T00:00:00Z", none⟩ rfl rfl
  exact h.2.1.mpr rfl

/-- C4: any task-event or authorization input missing a required field
(`taskId`/`type`/`description`, resp. `taskId`/`action`/`description`/
`requiredBy`), or whose `type` or `requiredBy` is malformed, fails
validation with per-field messages, no envelope is produced (the run
returns the validation error before any send), and the system state is
untouched. -/
theorem c4_validation_rejects_bad_input (cfg : Config) (connected : Bool) (now : String)
    (nowMs : Nat) (args : JObj) :
    (taskInputBad args = true →
      taskEventIssues args ≠ [] ∧
      parseTaskEvent args = .error (taskEventIssues args) ∧
      sendTaskEventRun cfg connected now args = .error (.validation (taskEventIssues args)) ∧
      (∀ s : CMState, step cfg s (.callTaskEvent now args) = s) ∧
      (jGet args "taskId" = none → (⟨"taskId", "Required"⟩ : Issue) ∈ taskEventIssues args) ∧
      (jGet args "type" = none → (⟨"type", taskTypeMessage⟩ : Issue) ∈ taskEventIssues args) ∧
      (jGet args "description" = none →
        (⟨"description", "Required"⟩ : Issue) ∈ taskEventIssues args)) ∧
    (authInputBad args = true →
      authRequestIssues args ≠ [] ∧
      parseAuthRequest args = .error (authRequestIssues args) ∧
      requestAuthorizationRun cfg connected nowMs now args
        = .error (.validation (authRequestIssues args)) ∧
      (∀ s : CMState, step cfg s (.callRequestAuthorization nowMs now args) = s) ∧
      (jGet args "taskId" = none → (⟨"taskId", "Required"⟩ : Issue) ∈ authRequestIssues args) ∧
      (jGet args "action" = none → (⟨"action", "Required"⟩ : Issue) ∈ authRequestIssues args) ∧
      (jGet args "description" = none →
        (⟨"description", "Required"⟩ : Issue) ∈ authRequestIssues args) ∧
      (jGet args "requiredBy" = none →
        (⟨"requiredBy", "Required"⟩ : Issue) ∈ authRequestIssues args) ∧
      (∀ d, jGet args "requiredBy" = some (.str d) → isIsoDatetime d = false →
        (⟨"requiredBy", "Fecha requerida debe ser ISO string válido"⟩ : Issue)
          ∈ authRequestIssues args)) := by
  constructor
  · intro h
    have hne := taskEventIssues_ne_nil h
    have hp := parseTaskEvent_error hne
    refine ⟨hne, hp, sendTaskEventRun_of_parse_error hp cfg connected now, ?_,
      fun hh => mem_taskEventIssues_taskId hh,
      fun hh => mem_taskEventIssues_type hh,
      fun hh => mem_taskEventIssues_description hh⟩
    intro s
    exact step_callTaskEvent_of_error (sendTaskEventRun_of_parse_error hp cfg _ now)
  · intro h
    have hne := authRequestIssues_ne_nil h
    have hp := parseAuthRequest_error hne
    refine ⟨hne, hp, requestAuthorizationRun_of_parse_error hp cfg connected nowMs now, ?_,
      fun hh => mem_authRequestIssues_taskId hh,
      fun hh => mem_authRequestIssues_action hh,
      fun hh => mem_authRequestIssues_description hh,
      fun hh => mem_authRequestIssues_requiredBy_missing hh,
      fun d hd hbad => mem_authRequestIssues_requiredBy_malformed hd hbad⟩
    intro s
    exact step_callAuth_of_error (requestAuthorizationRun_of_parse_error hp cfg _ nowMs now)

/-- Witness for C4 at the empty argument object: both parsers reject it. -/
theorem c4_witness :
    parseTaskEvent [] = .error (taskEventIssues [])
    ∧ parseAuthRequest [] = .error (authRequestIssues []) := by
  have h := c4_validation_rejects_bad_input cfg0 true "2025-06-01T00:00:00Z" 1700000000000 []
  exact ⟨(h.1 rfl).2.1, (h.2 rfl).2.1⟩

/-- C10: arguments shaped exactly as the HTTP `/mcp` endpoint's own
advertised `send_task_event` input schema (`event_type`, `task_id`,
`message`, without `taskId`/`type`/`description`) always fail the Zod
validation the handler actually applies, so no envelope is ever sent. -/
theorem c10_advertised_schema_always_rejected (cfg : Config) (connected : Bool)
    (now : String) (args : JObj) (h : conformsHttpTaskSchema args = true) :
    taskEventIssues args ≠ [] ∧
    sendTaskEventRun cfg connected now args = .error (.validation (taskEventIssues args)) ∧
    (∀ s : CMState, step cfg s (.callTaskEvent now args) = s) := by
  have hbad : taskInputBad args = true := by
    unfold conformsHttpTaskSchema at h
    simp only [Bool.and_eq_true] at h
    have h4 : (jGet args "taskId").isNone = true := h.1.1.2
    simp [taskInputBad, h4]
  have hne := taskEventIssues_ne_nil hbad
  have hp := parseTaskEvent_error hne
  exact ⟨hne, sendTaskEventRun_of_parse_error hp cfg connected now,
    fun s => step_callTaskEvent_of_error (sendTaskEventRun_of_parse_error hp cfg _ now)⟩

/-- Witness for C10 at a concrete schema-conforming call. -/
theorem c10_witness :
    sendTaskEventRun cfg0 true "2025-06-01T00:00:00Z"
        [("event_type", Json.str "task_start"), ("task_id", Json.str "t1"),
         ("message", Json.str "hello")]
      = .error (.validation (taskEventIssues
          [("event_type", Json.str "task_start"), ("task_id", Json.str "t1"),
           ("message", Json.str "hello")])) := by
  have h := c10_advertised_schema_always_rejected cfg0 true "2025-06-01T00:00:00Z"
      [("event_type", Json.str "task_start"), ("task_id", Json.str "t1"),
       ("message", Json.str "hello")] rfl
  exact h.2.1

/-- C5 counterexample: with `userId` provided as the empty string (a valid
input), the sent envelope's `payload.userId` is the configured default, not
the provided value, although the field was not omitted — refuting the
claim's "provided value, or the default when omitted" description. -/
theorem c5_counterexample :
    ∃ msg t, sendTaskEventRun cfg0 true "2025-06-01T00:00:00Z"
        [("taskId", Json.str "t1"), ("type", Json.str "task_started"),
         ("description", Json.str "d"), ("userId", Json.str "")]
      = .ok (msg, t)
    ∧ jGet [("taskId", Json.str "t1"), ("type", Json.str "task_started"),
         ("description", Json.str "d"), ("userId", Json.str "")] "userId"
        = some (.str "")
    ∧ jGet msg.payload "userId" = some (.str cfg0.userId)
    ∧ cfg0.userId ≠ "" := by
  refine ⟨_, _, rfl, rfl, rfl, by decide⟩

/-- C5 (amended): every valid TaskEvent dispatch produces exactly one
`task_event` envelope whose `payload.metadata.source` is the configured
source (injected fields win on key collision) and whose
`payload.metadata.timestamp` is the construction-time clock; `payload.userId`
is the provided userId when it is non-empty and the configured default when
it is omitted or the empty string (the JS `||` fallback). -/
theorem c5_amended (cfg : Config) (now : String) (args : JObj) (v : TaskEventV)
    (hv : parseTaskEvent args = .ok v) :
    ∃ t, sendTaskEventRun cfg true now args = .ok (buildTaskEventMsg cfg now v, t)
    ∧ (buildTaskEventMsg cfg now v).type = "task_event"
    ∧ (∃ meta, jGet (buildTaskEventMsg cfg now v).payload "metadata" = some (.obj meta)
        ∧ jGet meta "source" = some (.str cfg.sourceName)
        ∧ jGet meta "timestamp" = some (.str now))
    ∧ ((v.userId = none ∨ v.userId = some "") →
        jGet (buildTaskEventMsg cfg now v).payload "userId" = some (.str cfg.userId))
    ∧ (∀ u, v.userId = some u → u ≠ "" →
        jGet (buildTaskEventMsg cfg now v).payload "userId" = some (.str u)) := by
  refine ⟨_, sendTaskEventRun_ok hv cfg now, rfl,
    ⟨mergeMeta (v.metadata.getD []) cfg.sourceName now, buildTaskEventMsg_metadata cfg now v,
      mergeMeta_source _ _ _, mergeMeta_timestamp _ _ _⟩, ?_, ?_⟩
  · intro hu
    rw [buildTaskEventMsg_userId]
    have hd : jsOrDefault v.userId cfg.userId = cfg.userId := by
      rcases hu with h | h <;> simp [jsOrDefault, h]
    rw [hd]
  · intro u hu hne
    rw [buildTaskEventMsg_userId]
    have hd : jsOrDefault v.userId cfg.userId = u := by
      simp [jsOrDefault, hu, hne]
    rw [hd]

/-- Witness for C5 (amended): a caller-supplied `metadata.source` collides
with the injected field and the injected configured source wins. -/
theorem c5_witness :
    ∃ meta, jGet (buildTaskEventMsg cfg0 "2025-06-01T00:00:00Z"
        ⟨"t1", "task_completed", "d", some "alice",
          some [("source", Json.str "spoof")]⟩).payload "metadata"
      = some (.obj meta)
    ∧ jGet meta "source" = some (.str cfg0.sourceName)
    ∧ jGet meta "timestamp" = some (.str "2025-06-01T00:00:00Z") := by
  have h := c5_amended cfg0 "2025-06-01T00:00:00Z"
      [("taskId", Json.str "t1"), ("type", Json.str "task_completed"),
       ("description", Json.str "d"), ("userId", Json.str "alice"),
       ("metadata", Json.obj [("source", Json.str "spoof")])]
      ⟨"t1", "task_completed", "d", some "alice", some [("source", Json.str "spoof")]⟩ rfl
  obtain ⟨t, _, _, hmeta, _, _⟩ := h
  exact hmeta

/-- C9: a present-but-empty `userId` passes validation for both tools and
the sent envelope's `payload.userId` equals the configured default — the
fallback applies to any empty-string userId, not only an omitted one. -/
theorem c9_empty_userId_falls_back (cfg : Config) (now : String) (nowMs : Nat)
    (tid ty desc act req : String)
    (htid : 1 ≤ tid.length) (hty : taskTypeValues.contains ty = true)
    (hdesc : 1 ≤ desc.length) (hact : 1 ≤ act.length) (hreq : isIsoDatetime req = true) :
    parseTaskEvent [("taskId", .str tid), ("type", .str ty), ("description", .str desc),
        ("userId", .str "")]
      = .ok ⟨tid, ty, desc, some "", none⟩
    ∧ (∃ t, sendTaskEventRun cfg true now
        [("taskId", .str tid), ("type", .str ty), ("description", .str desc),
         ("userId", .str "")]
      = .ok (buildTaskEventMsg cfg now ⟨tid, ty, desc, some "", none⟩, t))
    ∧ jGet (buildTaskEventMsg cfg now ⟨tid, ty, desc, some "", none⟩).payload "userId"
        = some (.str cfg.userId)
    ∧ parseAuthRequest [("taskId", .str tid), ("action", .str act),
        ("description", .str desc), ("userId", .str ""), ("requiredBy", .str req)]
      = .ok ⟨tid, act, desc, some "", req, none⟩
    ∧ (∃ t, requestAuthorizationRun cfg true nowMs now
        [("taskId", .str tid), ("action", .str act), ("description", .str desc),
         ("userId", .str ""), ("requiredBy", .str req)]
      = .ok (buildAuthMsg cfg nowMs now ⟨tid, act, desc, some "", req, none⟩, t))
    ∧ jGet (buildAuthMsg cfg nowMs now ⟨tid, act, desc, some "", req, none⟩).payload "userId"
        = some (.str cfg.userId) := by
  have e1 : jGet [("taskId", Json.str tid), ("type", Json.str ty),
      ("description", Json.str desc), ("userId", Json.str "")] "taskId"
      = some (Json.str tid) := rfl
  have e2 : jGet [("taskId", Json.str tid), ("type", Json.str ty),
      ("description", Json.str desc), ("userId", Json.str "")] "type"
      = some (Json.str ty) := rfl
  have e3 : jGet [("taskId", Json.str tid), ("type", Json.str ty),
      ("description", Json.str desc), ("userId", Json.str "")] "description"
      = some (Json.str desc) := rfl
  have e4 : jGet [("taskId", Json.str tid), ("type", Json.str ty),
      ("description", Json.str desc), ("userId", Json.str "")] "userId"
      = some (Json.str "") := rfl
  have e5 : jGet [("taskId", Json.str tid), ("type", Json.str ty),
      ("description", Json.str desc), ("userId", Json.str "")] "metadata" = none := rfl
  have hIssT : taskEventIssues [("taskId", .str tid), ("type", .str ty),
      ("description", .str desc), ("userId", .str "")] = [] := by
    unfold taskEventIssues
    rw [strFieldIssues_ok "Task ID es requerido" e1 htid, typeFieldIssues_ok e2 hty,
      strFieldIssues_ok "Descripción es requerida" e3 hdesc, optStrFieldIssues_str e4,
      optObjFieldIssues_missing e5]
    rfl
  have hpT : parseTaskEvent [("taskId", .str tid), ("type", .str ty),
      ("description", .str desc), ("userId", .str "")]
      = .ok ⟨tid, ty, desc, some "", none⟩ := by
    unfold parseTaskEvent
    rw [hIssT]
    rfl
  have f1 : jGet [("taskId", Json.str tid), ("action", Json.str act),
      ("description", Json.str desc), ("userId", Json.str ""), ("requiredBy", Json.str req)]
      "taskId" = some (Json.str tid) := rfl
  have f2 : jGet [("taskId", Json.str tid), ("action", Json.str act),
      ("description", Json.str desc), ("userId", Json.str ""), ("requiredBy", Json.str req)]
      "action" = some (Json.str act) := rfl
  have f3 : jGet [("taskId", Json.str tid), ("action", Json.str act),
      ("description", Json.str desc), ("userId", Json.str ""), ("requiredBy", Json.str req)]
      "description" = some (Json.str desc) := rfl
  have f4 : jGet [("taskId", Json.str tid), ("action", Json.str act),
      ("description", Json.str desc), ("userId", Json.str ""), ("requiredBy", Json.str req)]
      "userId" = some (Json.str "") := rfl
  have f5 : jGet [("taskId", Json.str tid), ("action", Json.str act),
      ("description", Json.str desc), ("userId", Json.str ""), ("requiredBy", Json.str req)]
      "requiredBy" = some (Json.str req) := rfl
  have f6 : jGet [("taskId", Json.str tid), ("action", Json.str act),
      ("description", Json.str desc), ("userId", Json.str ""), ("requiredBy", Json.str req)]
      "metadata" = none := rfl
  have hIssA : authRequestIssues [("taskId", .str tid), ("action", .str act),
      ("description", .str desc), ("userId", .str ""), ("requiredBy", .str req)] = [] := by
    unfold authRequestIssues
    rw [strFieldIssues_ok "Task ID es requerido" f1 htid,
      strFieldIssues_ok "Acción es requerida" f2 hact,
      strFieldIssues_ok "Descripción es requerida" f3 hdesc, optStrFieldIssues_str f4,
      requiredByIssues_ok f5 hreq, optObjFieldIssues_missing f6]
    rfl
  have hpA : parseAuthRequest [("taskId", .str tid), ("action", .str act),
      ("description", .str desc), ("userId", .str ""), ("requiredBy", .str req)]
      = .ok ⟨tid, act, desc, some "", req, none⟩ := by
    unfold parseAuthRequest
    rw [hIssA]
    rfl
  refine ⟨hpT, ⟨_, sendTaskEventRun_ok hpT cfg now⟩, ?_, hpA,
    ⟨_, requestAuthorizationRun_ok hpA cfg nowMs now⟩, ?_⟩
  · rw [buildTaskEventMsg_userId]
    rfl
  · rw [buildAuthMsg_userId]
    rfl

/-- Witness for C9 at concrete field values. -/
theorem c9_witness :
    jGet (buildTaskEventMsg cfg0 "2025-06-01T00:00:00Z"
        ⟨"t1", "task_started", "d", some "", none⟩).payload "userId"
      = some (.str cfg0.userId)
    ∧ jGet (buildAuthMsg cfg0 1700000000000 "2025-06-01T00:00:00Z"
        ⟨"t1", "deploy", "d", some "", "2025-01-01T00:00:00Z", none⟩).payload "userId"
      = some (.str cfg0.userId) := by
  have h := c9_empty_userId_falls_back cfg0 "2025-06-01T00:00:00Z" 1700000000000
      "t1" "task_started" "d" "deploy" "2025-01-01T00:00:00Z"
      (by decide) rfl (by decide) (by decide) rfl
  exact ⟨h.2.2.1, h.2.2.2.2.2⟩

/-- C7 counterexample: two distinct authorization requests (different
taskIds) issued in the same millisecond receive identical requestIds, so
requestIds are not unique within a process lifetime. -/
theorem c7_counterexample :
    ∃ m1 t1 m2 t2,
      requestAuthorizationRun cfg0 true 1700000000000 "2025-06-01T00:00:00Z"
          [("taskId", Json.str "t1"), ("action", Json.str "deploy"),
           ("description", Json.str "go"), ("requiredBy", Json.str "2025-01-01T00:00:00Z")]
        = .ok (m1, t1)
      ∧ requestAuthorizationRun cfg0 true 1700000000000 "2025-06-01T00:00:00Z"
          [("taskId", Json.str "t2"), ("action", Json.str "deploy"),
           ("description", Json.str "go"), ("requiredBy", Json.str "2025-01-01T00:00:00Z")]
        = .ok (m2, t2)
      ∧ jGet m1.payload "taskId" = some (.str "t1")
      ∧ jGet m2.payload "taskId" = some (.str "t2")
      ∧ jGet m1.payload "requestId" = jGet m2.payload "requestId"
      ∧ jGet m1.payload "requestId" = some (.str (requestIdFor 1700000000000)) :=
  ⟨_, _, _, _, rfl, rfl, rfl, rfl, rfl, rfl⟩

/-- C7 (amended): every authorization dispatched while Ready sends exactly
one `authorization_request` envelope carrying the injected requestId
`auth-` + `Date.now()`; requestIds generated at distinct millisecond
timestamps are distinct, but calls within the same millisecond share a
requestId, so uniqueness holds only across distinct timestamps. -/
theorem c7_amended (cfg : Config) (now : String) (nowMs : Nat) (args : JObj)
    (v : AuthRequestV) (hv : parseAuthRequest args = .ok v) :
    (∃ t, requestAuthorizationRun cfg true nowMs now args
        = .ok (buildAuthMsg cfg nowMs now v, t))
    ∧ (buildAuthMsg cfg nowMs now v).type = "authorization_request"
    ∧ jGet (buildAuthMsg cfg nowMs now v).payload "requestId"
        = some (.str (requestIdFor nowMs))
    ∧ (∀ n1 n2 : Nat, n1 ≠ n2 → requestIdFor n1 ≠ requestIdFor n2) := by
  refine ⟨⟨_, requestAuthorizationRun_ok hv cfg nowMs now⟩, rfl,
    buildAuthMsg_requestId cfg nowMs now v, ?_⟩
  intro n1 n2 hne h
  exact hne (requestIdFor_injective h)

/-- Witness for C7 (amended) at a concrete request and concrete distinct
timestamps. -/
theorem c7_witness :
    jGet (buildAuthMsg cfg0 1700000000000 "2025-06-01T00:00:00Z"
        ⟨"t1", "deploy", "go", none, "2025-01-01T00:00:00Z", none⟩).payload "requestId"
      = some (.str (requestIdFor 1700000000000))
    ∧ requestIdFor 1700000000000 ≠ requestIdFor 1700000000001 := by
  have h := c7_amended cfg0 "2025-06-01T00:00:00Z" 1700000000000
      [("taskId", Json.str "t1"), ("action", Json.str "deploy"),
       ("description", Json.str "go"), ("requiredBy", Json.str "2025-01-01T00:00:00Z")]
      ⟨"t1", "deploy", "go", none, "2025-01-01T00:00:00Z", none⟩ rfl
  exact ⟨h.2.2.1, h.2.2.2 1700000000000 1700000000001 (by omega)⟩

/-! ### Backoff trace characterization (C1, C3) -/

lemma predictedDelays_succ (n : Nat) :
    predictedDelays (n + 1) = predictedDelays n ++ [min (reconnectDelay * (n + 1)) 30000] := by
  simp [predictedDelays, List.range_succ]

lemma failStep_connecting (cfg : Config) (a : Nat) (d : List Nat) (ha : a + 1 ≤ 10) :
    failStep cfg ⟨some ⟨.connecting, []⟩, a, false, 0, d⟩
      = ⟨some ⟨.connecting, []⟩, a + 1, false, 0,
          d ++ [min (reconnectDelay * (a + 1)) 30000]⟩ := by
  have h1 : ¬ (a + 1 > maxReconnectAttempts) := by
    unfold maxReconnectAttempts; omega
  simp [failStep, step, scheduleReconnect, connectToMonitor, h1]

lemma afterFailures_le10 (cfg : Config) :
    ∀ N, N ≤ 10 →
      afterFailures cfg N = ⟨some ⟨.connecting, []⟩, N, false, 0, predictedDelays N⟩ := by
  intro N
  induction N with
  | zero => intro _; rfl
  | succ N ih =>
    intro hN
    show failStep cfg (afterFailures cfg N) = _
    rw [ih (by omega), failStep_connecting cfg N (predictedDelays N) (by omega),
      ← predictedDelays_succ]

lemma afterFailures_11 (cfg : Config) :
    afterFailures cfg 11 = ⟨some ⟨.closed, []⟩, 11, false, 0, predictedDelays 10⟩ := by
  show failStep cfg (afterFailures cfg 10) = _
  rw [afterFailures_le10 cfg 10 (by omega)]
  have h1 : 10 + 1 > maxReconnectAttempts := by
    unfold maxReconnectAttempts; omega
  simp [failStep, step, scheduleReconnect, connectToMonitor, h1]

lemma afterFailures_ge11 (cfg : Config) :
    ∀ N, 11 ≤ N → afterFailures cfg N = afterFailures cfg 11 := by
  intro N
  induction N with
  | zero => omega
  | succ N ih =>
    intro hN
    rcases Nat.lt_or_ge 11 (N + 1) with h | h
    · show failStep cfg (afterFailures cfg N) = _
      rw [ih (by omega), afterFailures_11 cfg]
      rw [show failStep cfg ⟨some ⟨.closed, []⟩, 11, false, 0, predictedDelays 10⟩
          = ⟨some ⟨.closed, []⟩, 11, false, 0, predictedDelays 10⟩ from rfl]
    · have he : N + 1 = 11 := by omega
      rw [he]

/-- C1 counterexample: eleven consecutive failed connection attempts from
the fresh state yield only ten scheduled backoff delays (the 11th failure
increments the counter past the maximum and schedules nothing), refuting
"exactly N scheduled delays" at N = 11. -/
theorem c1_counterexample :
    (afterFailures cfg0 11).reconnectAttempts = 11
    ∧ (afterFailures cfg0 11).scheduledDelays.length = 10
    ∧ (10 : Nat) ≠ 11 :=
  ⟨rfl, rfl, by omega⟩

/-- C1 (amended): N consecutive failed connection attempts from the fresh
state schedule exactly `min N 10` backoff delays, the k-th equal to
`min(5000·k, 30000)`; the attempt counter increments on every scheduling
cycle, reaching `min N 11` (it passes the maximum once and the manager then
gives up), and is reset to zero on every successful socket open. -/
theorem c1_amended (cfg : Config) (N : Nat) :
    (afterFailures cfg N).scheduledDelays = predictedDelays (min N 10)
    ∧ predictedDelays (min N 10)
        = (List.range (min N 10)).map (fun k => min (reconnectDelay * (k + 1)) 30000)
    ∧ (afterFailures cfg N).reconnectAttempts = min N 11
    ∧ (∀ (s : CMState) (sk : SocketSt) (now : String), s.monitorWs = some sk →
        sk.readyState = .connecting → (step cfg s (.wsOpen now)).reconnectAttempts = 0) := by
  refine ⟨?_, rfl, ?_, ?_⟩
  · rcases le_or_lt N 10 with h | h
    · rw [afterFailures_le10 cfg N h]
      show predictedDelays N = predictedDelays (min N 10)
      rw [Nat.min_eq_left h]
    · rw [afterFailures_ge11 cfg N (by omega), afterFailures_11 cfg]
      show predictedDelays 10 = predictedDelays (min N 10)
      rw [Nat.min_eq_right (by omega)]
  · rcases le_or_lt N 10 with h | h
    · rw [afterFailures_le10 cfg N h]
      show N = min N 11
      rw [Nat.min_eq_left (by omega)]
    · rw [afterFailures_ge11 cfg N (by omega), afterFailures_11 cfg]
      show 11 = min N 11
      rw [Nat.min_eq_right (by omega)]
  · intro s sk now hms hrs
    simp only [step]
    rw [hms]
    simp [hrs]

/-- Witness for C1 (amended) at three failures and a concrete open event. -/
theorem c1_witness :
    (afterFailures cfg0 3).scheduledDelays = predictedDelays 3
    ∧ (afterFailures cfg0 3).reconnectAttempts = 3
    ∧ (step cfg0 (afterFailures cfg0 3)
        (.wsOpen "2025-06-01T00:00:00Z")).reconnectAttempts = 0 := by
  have h := c1_amended cfg0 3
  exact ⟨h.1, h.2.2.1,
    h.2.2.2 (afterFailures cfg0 3) ⟨.connecting, []⟩ "2025-06-01T00:00:00Z" rfl rfl⟩

/-! ### Absorption after giving up (C3) -/

lemma socketDown_readyState {rs : ReadyState} {fr : List WSMessage}
    (h : socketDown (some ⟨rs, fr⟩) = true) : rs = .closed := by
  cases rs with
  | connecting => exact Bool.noConfusion h
  | opened => exact Bool.noConfusion h
  | closed => rfl

lemma isWebSocketConnected_false_of_down {ws : Option SocketSt}
    (h : socketDown ws = true) : isWebSocketConnected ws = false := by
  cases ws with
  | none => rfl
  | some sk =>
    obtain ⟨rs, fr⟩ := sk
    rw [socketDown_readyState h]
    rfl

lemma step_callTaskEvent_not_connected {cfg : Config} {s : CMState} {now : String}
    {args : JObj} (h : isWebSocketConnected s.monitorWs = false) :
    step cfg s (.callTaskEvent now args) = s := by
  cases hp : parseTaskEvent args with
  | error is =>
    exact step_callTaskEvent_of_error
      (by rw [h]; exact sendTaskEventRun_of_parse_error hp cfg false now)
  | ok v =>
    exact step_callTaskEvent_of_error
      (by rw [h]; exact sendTaskEventRun_disconnected hp cfg now)

lemma step_callAuth_not_connected {cfg : Config} {s : CMState} {nowMs : Nat} {now : String}
    {args : JObj} (h : isWebSocketConnected s.monitorWs = false) :
    step cfg s (.callRequestAuthorization nowMs now args) = s := by
  cases hp : parseAuthRequest args with
  | error is =>
    exact step_callAuth_of_error
      (by rw [h]; exact requestAuthorizationRun_of_parse_error hp cfg false nowMs now)
  | ok v =>
    exact step_callAuth_of_error
      (by rw [h]; exact requestAuthorizationRun_disconnected hp cfg nowMs now)

lemma step_givenUp {cfg : Config} {s : CMState} (h : GivenUp s) :
    ∀ a : Act, a.isExternalConnect = false →
      GivenUp (step cfg s a) ∧ (step cfg s a).scheduledDelays = s.scheduledDelays := by
  obtain ⟨hmax, htimer, hdown⟩ := h
  intro a ha
  cases a with
  | wsOpen now =>
    have he : step cfg s (.wsOpen now) = s := by
      cases hms : s.monitorWs with
      | none => simp [step, hms]
      | some sk =>
        obtain ⟨rs, fr⟩ := sk
        have hrs : rs = .closed := socketDown_readyState (hms ▸ hdown)
        subst hrs
        simp [step, hms]
    rw [he]
    exact ⟨⟨hmax, htimer, hdown⟩, rfl⟩
  | wsClose =>
    have he : step cfg s .wsClose = s := by
      cases hms : s.monitorWs with
      | none => simp [step, hms]
      | some sk =>
        obtain ⟨rs, fr⟩ := sk
        have hrs : rs = .closed := socketDown_readyState (hms ▸ hdown)
        subst hrs
        simp [step, hms]
    rw [he]
    exact ⟨⟨hmax, htimer, hdown⟩, rfl⟩
  | wsError => exact ⟨⟨hmax, htimer, hdown⟩, rfl⟩
  | wsInbound => exact ⟨⟨hmax, htimer, hdown⟩, rfl⟩
  | timerFire ct =>
    have he : step cfg s (.timerFire ct) = s := by
      simp [step, htimer]
    rw [he]
    exact ⟨⟨hmax, htimer, hdown⟩, rfl⟩
  | externalConnect ct => exact Bool.noConfusion ha
  | shutdown =>
    refine ⟨⟨hmax, htimer, ?_⟩, rfl⟩
    cases hms : s.monitorWs with
    | none => simp [step, hms, socketDown]
    | some sk =>
      obtain ⟨rs, fr⟩ := sk
      simp [step, hms, socketDown]
  | callTaskEvent now args =>
    have he := @step_callTaskEvent_not_connected cfg s now args
      (isWebSocketConnected_false_of_down hdown)
    rw [he]
    exact ⟨⟨hmax, htimer, hdown⟩, rfl⟩
  | callRequestAuthorization nowMs now args =>
    have he := @step_callAuth_not_connected cfg s nowMs now args
      (isWebSocketConnected_false_of_down hdown)
    rw [he]
    exact ⟨⟨hmax, htimer, hdown⟩, rfl⟩

lemma run_givenUp (cfg : Config) :
    ∀ (acts : List Act) (s : CMState), GivenUp s →
      (∀ a ∈ acts, a.isExternalConnect = false) →
      GivenUp (run cfg s acts) ∧ (run cfg s acts).scheduledDelays = s.scheduledDelays := by
  intro acts
  induction acts with
  | nil => intro s h _; exact ⟨h, rfl⟩
  | cons a rest ih =>
    intro s h hacts
    obtain ⟨hg, hd⟩ := step_givenUp h a (hacts a (by simp))
    obtain ⟨hg2, hd2⟩ := ih (step cfg s a) hg (fun b hb => hacts b (by simp [hb]))
    refine ⟨hg2, ?_⟩
    show (run cfg (step cfg s a) rest).scheduledDelays = s.scheduledDelays
    rw [hd2, hd]


/-! ### Timer multiplicity (C8) -/


lemma timerInv_scheduleReconnect {s : CMState} (ht : s.pendingTimers = 0)
    (hd : socketDown s.monitorWs = true) : TimerInv (scheduleReconnect s) := by
  unfold scheduleReconnect
  split
  · exact ⟨by omega, fun _ => hd⟩
  · split
    · refine ⟨?_, fun _ => hd⟩
      show s.pendingTimers ≤ 1
      omega
    · refine ⟨?_, fun _ => hd⟩
      show s.pendingTimers + 1 ≤ 1
      omega

lemma timerInv_connectToMonitor {s : CMState} (ht : s.pendingTimers = 0)
    (hd : socketDown s.monitorWs = true) (ct : Bool) : TimerInv (connectToMonitor s ct) := by
  unfold connectToMonitor
  split
  · exact ⟨by omega, fun h1 => hd⟩
  · split
    · exact timerInv_scheduleReconnect ht hd
    · refine ⟨?_, fun h1 => ?_⟩
      · show s.pendingTimers ≤ 1
        omega
      · have h1x : s.pendingTimers = 1 := h1
        exact absurd h1x (by omega)

lemma socketDown_map_closed (ws : Option SocketSt) :
    socketDown (ws.map (fun sk => ⟨.closed, sk.framesSent⟩)) = true := by
  cases ws with
  | none => rfl
  | some sk => rfl

lemma socketDown_map_frames (ws : Option SocketSt) (m : WSMessage) :
    socketDown (ws.map (fun sk => ⟨sk.readyState, sk.framesSent ++ [m]⟩)) = socketDown ws := by
  cases ws with
  | none => rfl
  | some sk =>
    obtain ⟨rs, fr⟩ := sk
    cases rs <;> rfl

lemma pendingTimers_zero_of_live {s : CMState} (ih : TimerInv s) {rs : ReadyState}
    {fr : List WSMessage} (hms : s.monitorWs = some ⟨rs, fr⟩) (hrs : rs ≠ .closed) :
    s.pendingTimers = 0 := by
  rcases Nat.lt_or_ge s.pendingTimers 1 with h1 | h1
  · omega
  · have h1x : s.pendingTimers = 1 := by
      have := ih.1
      omega
    have hd := ih.2 h1x
    rw [hms] at hd
    exact absurd (socketDown_readyState hd) hrs

lemma closedReachable_timerInv {cfg : Config} {s : CMState}
    (h : ClosedReachable cfg s) : TimerInv s := by
  induction h with
  | init => exact ⟨by decide, fun h0 => absurd h0 (by decide)⟩
  | next hs a ha ih =>
    rename_i s
    cases a with
    | wsOpen now =>
      cases hms : s.monitorWs with
      | none => simpa [step, hms] using ih
      | some sk =>
        obtain ⟨rs, fr⟩ := sk
        cases rs with
        | connecting =>
          have ht0 : s.pendingTimers = 0 :=
            pendingTimers_zero_of_live ih hms (by decide)
          have hstep : step cfg s (.wsOpen now)
              = { s with
                    reconnectAttempts := 0
                    monitorWs := some ⟨.opened, fr ++ [identifyMessage cfg now]⟩ } := by
            simp [step, hms]
          rw [hstep]
          refine ⟨?_, fun h1 => ?_⟩
          · show s.pendingTimers ≤ 1
            omega
          · have h1x : s.pendingTimers = 1 := h1
            exact absurd h1x (by omega)
        | opened => simpa [step, hms] using ih
        | closed => simpa [step, hms] using ih
    | wsClose =>
      cases hms : s.monitorWs with
      | none => simpa [step, hms] using ih
      | some sk =>
        obtain ⟨rs, fr⟩ := sk
        cases rs with
        | closed => simpa [step, hms] using ih
        | connecting =>
          have ht0 : s.pendingTimers = 0 :=
            pendingTimers_zero_of_live ih hms (by decide)
          have hstep : step cfg s .wsClose
              = scheduleReconnect { s with monitorWs := some ⟨.closed, fr⟩ } := by
            simp [step, hms]
          rw [hstep]
          exact timerInv_scheduleReconnect ht0 rfl
        | opened =>
          have ht0 : s.pendingTimers = 0 :=
            pendingTimers_zero_of_live ih hms (by decide)
          have hstep : step cfg s .wsClose
              = scheduleReconnect { s with monitorWs := some ⟨.closed, fr⟩ } := by
            simp [step, hms]
          rw [hstep]
          exact timerInv_scheduleReconnect ht0 rfl
    | wsError => exact ih
    | wsInbound => exact ih
    | timerFire ct =>
      rcases Nat.eq_zero_or_pos s.pendingTimers with ht | ht
      · simpa [step, ht] using ih
      · have h1 : s.pendingTimers = 1 := by
          have := ih.1
          omega
        have hd : socketDown s.monitorWs = true := ih.2 h1
        have hstep : step cfg s (.timerFire ct)
            = connectToMonitor { s with pendingTimers := s.pendingTimers - 1 } ct := by
          simp only [step]
          rw [if_neg (by omega)]
        rw [hstep]
        exact @timerInv_connectToMonitor { s with pendingTimers := s.pendingTimers - 1 }
          (by show s.pendingTimers - 1 = 0; omega) hd ct
    | externalConnect ct => exact Bool.noConfusion ha
    | shutdown =>
      exact ⟨ih.1, fun h1 => socketDown_map_closed s.monitorWs⟩
    | callTaskEvent now args =>
      cases hrun : sendTaskEventRun cfg (isWebSocketConnected s.monitorWs) now args with
      | error e =>
        rw [step_callTaskEvent_of_error hrun]
        exact ih
      | ok r =>
        obtain ⟨msg, t⟩ := r
        have hstep : step cfg s (.callTaskEvent now args) = appendFrame s msg := by
          simp only [step]
          rw [hrun]
        rw [hstep]
        refine ⟨ih.1, fun h1 => ?_⟩
        rw [show (appendFrame s msg).monitorWs
            = s.monitorWs.map (fun sk => ⟨sk.readyState, sk.framesSent ++ [msg]⟩) from rfl,
          socketDown_map_frames]
        exact ih.2 h1
    | callRequestAuthorization nowMs now args =>
      cases hrun : requestAuthorizationRun cfg (isWebSocketConnected s.monitorWs)
          nowMs now args with
      | error e =>
        rw [step_callAuth_of_error hrun]
        exact ih
      | ok r =>
        obtain ⟨msg, t⟩ := r
        have hstep : step cfg s (.callRequestAuthorization nowMs now args)
            = appendFrame s msg := by
          simp only [step]
          rw [hrun]
        rw [hstep]
        refine ⟨ih.1, fun h1 => ?_⟩
        rw [show (appendFrame s msg).monitorWs
            = s.monitorWs.map (fun sk => ⟨sk.readyState, sk.framesSent ++ [msg]⟩) from rfl,
          socketDown_map_frames]
        exact ih.2 h1

/-- C8 counterexample: `connectToMonitor` stores no timer handle and
cancels nothing. After one close a backoff timer is pending; an external
`connect()` call opens a fresh socket while leaving that timer pending,
and when the new socket closes, two reconnect timers are outstanding at
once — refuting both the cancel-first mechanism and the claimed
two-timers-impossible consequence for externally triggered connects. -/
theorem c8_counterexample :
    (run cfg0 initState [.wsClose]).pendingTimers = 1
    ∧ (run cfg0 initState [.wsClose, .externalConnect false]).pendingTimers = 1
    ∧ (run cfg0 initState [.wsClose, .externalConnect false]).monitorWs
        = some ⟨.connecting, []⟩
    ∧ (run cfg0 initState [.wsClose, .externalConnect false, .wsClose]).pendingTimers = 2 :=
  ⟨rfl, rfl, rfl, rfl⟩

/-- C8 (amended): `connect()` does not cancel pending backoff timers (no
handle is stored); nevertheless, in the closed system — where
`connectToMonitor` runs only from the constructor and from timer expiry —
every reachable state has at most one outstanding reconnect timer. -/
theorem c8_amended (cfg : Config) (s : CMState) (h : ClosedReachable cfg s) :
    s.pendingTimers ≤ 1 :=
  (closedReachable_timerInv h).1

/-- Witness for C8 (amended) at the state right after the first close. -/
theorem c8_witness : (step cfg0 initState .wsClose).pendingTimers ≤ 1 :=
  c8_amended cfg0 _ (ClosedReachable.next ClosedReachable.init .wsClose rfl)

/-! ### Identification frame discipline (C6) -/


lemma identifyCount_append_user (l : List WSMessage) {m : WSMessage}
    (hm : (m.type == "mcp_client_identify") = false) :
    identifyCount (l ++ [m]) = identifyCount l := by
  unfold identifyCount
  rw [List.countP_append]
  simp [List.countP_cons, hm]

lemma scheduleReconnect_monitorWs (s : CMState) :
    (scheduleReconnect s).monitorWs = s.monitorWs := by
  unfold scheduleReconnect
  split
  · rfl
  · split <;> rfl

lemma isWebSocketConnected_true {ws : Option SocketSt}
    (h : isWebSocketConnected ws = true) : ∃ fr, ws = some ⟨.opened, fr⟩ := by
  cases ws with
  | none => exact Bool.noConfusion h
  | some sk =>
    obtain ⟨rs, fr⟩ := sk
    cases rs with
    | connecting => exact Bool.noConfusion h
    | opened => exact ⟨fr, rfl⟩
    | closed => exact Bool.noConfusion h

lemma sendTaskEventRun_ok_parts {cfg : Config} {c : Bool} {now : String} {args : JObj}
    {msg : WSMessage} {t : String}
    (h : sendTaskEventRun cfg c now args = .ok (msg, t)) :
    c = true ∧ msg.type = "task_event" := by
  unfold sendTaskEventRun at h
  cases hp : parseTaskEvent args with
  | error is =>
    rw [hp] at h
    exact Except.noConfusion h
  | ok v =>
    rw [hp] at h
    cases c with
    | false => exact Except.noConfusion h
    | true =>
      injection h with h2
      have h3 : buildTaskEventMsg cfg now v = msg := congrArg Prod.fst h2
      exact ⟨rfl, by rw [← h3]; rfl⟩

lemma requestAuthorizationRun_ok_parts {cfg : Config} {c : Bool} {nowMs : Nat}
    {now : String} {args : JObj} {msg : WSMessage} {t : String}
    (h : requestAuthorizationRun cfg c nowMs now args = .ok (msg, t)) :
    c = true ∧ msg.type = "authorization_request" := by
  unfold requestAuthorizationRun at h
  cases hp : parseAuthRequest args with
  | error is =>
    rw [hp] at h
    exact Except.noConfusion h
  | ok v =>
    rw [hp] at h
    cases c with
    | false => exact Except.noConfusion h
    | true =>
      injection h with h2
      have h3 : buildAuthMsg cfg nowMs now v = msg := congrArg Prod.fst h2
      exact ⟨rfl, by rw [← h3]; rfl⟩


lemma sockOk_fresh (cfg : Config) : SockOk cfg ⟨.connecting, []⟩ :=
  ⟨fun _ => rfl, fun hc => ReadyState.noConfusion hc, fun hne => absurd rfl hne⟩

lemma sockOk_closed_of (cfg : Config) {rs : ReadyState} {fr : List WSMessage}
    (h : SockOk cfg ⟨rs, fr⟩) : SockOk cfg ⟨.closed, fr⟩ :=
  ⟨fun hc => ReadyState.noConfusion hc, fun hc => ReadyState.noConfusion hc, h.2.2⟩

lemma reachable_sockOk {cfg : Config} {s : CMState} (h : Reachable cfg s) :
    ∀ sk, s.monitorWs = some sk → SockOk cfg sk := by
  induction h with
  | init =>
    intro sk hsk
    have hsk2 : some (⟨.connecting, []⟩ : SocketSt) = some sk := hsk
    injection hsk2 with h2
    subst h2
    exact sockOk_fresh cfg
  | next hs a ih =>
    rename_i s
    intro sk hsk
    cases a with
    | wsOpen now =>
      cases hms : s.monitorWs with
      | none =>
        rw [show step cfg s (.wsOpen now) = s from by simp [step, hms]] at hsk
        exact ih sk hsk
      | some sk0 =>
        obtain ⟨rs, fr⟩ := sk0
        cases rs with
        | connecting =>
          have hfr : fr = [] := (ih _ hms).1 rfl
          subst hfr
          have hstep : step cfg s (.wsOpen now)
              = { s with
                    reconnectAttempts := 0
                    monitorWs := some ⟨.opened, [] ++ [identifyMessage cfg now]⟩ } := by
            simp [step, hms]
          rw [hstep] at hsk
          have hsk2 : some (⟨.opened, [identifyMessage cfg now]⟩ : SocketSt) = some sk := hsk
          injection hsk2 with h2
          subst h2
          refine ⟨fun hc => ReadyState.noConfusion hc, fun _ => by simp, fun _ => ?_⟩
          exact ⟨⟨now, rfl⟩, rfl⟩
        | opened =>
          rw [show step cfg s (.wsOpen now) = s from by simp [step, hms]] at hsk
          exact ih sk hsk
        | closed =>
          rw [show step cfg s (.wsOpen now) = s from by simp [step, hms]] at hsk
          exact ih sk hsk
    | wsClose =>
      cases hms : s.monitorWs with
      | none =>
        rw [show step cfg s .wsClose = s from by simp [step, hms]] at hsk
        exact ih sk hsk
      | some sk0 =>
        obtain ⟨rs, fr⟩ := sk0
        cases rs with
        | closed =>
          rw [show step cfg s .wsClose = s from by simp [step, hms]] at hsk
          exact ih sk hsk
        | connecting =>
          have hstep : step cfg s .wsClose
              = scheduleReconnect { s with monitorWs := some ⟨.closed, fr⟩ } := by
            simp [step, hms]
          rw [hstep, scheduleReconnect_monitorWs] at hsk
          have hsk2 : some (⟨.closed, fr⟩ : SocketSt) = some sk := hsk
          injection hsk2 with h2
          subst h2
          exact sockOk_closed_of cfg (ih _ hms)
        | opened =>
          have hstep : step cfg s .wsClose
              = scheduleReconnect { s with monitorWs := some ⟨.closed, fr⟩ } := by
            simp [step, hms]
          rw [hstep, scheduleReconnect_monitorWs] at hsk
          have hsk2 : some (⟨.closed, fr⟩ : SocketSt) = some sk := hsk
          injection hsk2 with h2
          subst h2
          exact sockOk_closed_of cfg (ih _ hms)
    | wsError => exact ih sk hsk
    | wsInbound => exact ih sk hsk
    | timerFire ct =>
      rcases Nat.eq_zero_or_pos s.pendingTimers with ht | ht
      · rw [show step cfg s (.timerFire ct) = s from by simp [step, ht]] at hsk
        exact ih sk hsk
      · have hstep : step cfg s (.timerFire ct)
            = connectToMonitor { s with pendingTimers := s.pendingTimers - 1 } ct := by
          simp only [step]
          rw [if_neg (by omega)]
        rw [hstep] at hsk
        unfold connectToMonitor at hsk
        split at hsk
        · exact ih sk hsk
        · split at hsk
          · rw [scheduleReconnect_monitorWs] at hsk
            exact ih sk hsk
          · have hsk2 : some (⟨.connecting, []⟩ : SocketSt) = some sk := hsk
            injection hsk2 with h2
            subst h2
            exact sockOk_fresh cfg
    | externalConnect ct =>
      have hsk2 : (connectToMonitor s ct).monitorWs = some sk := hsk
      unfold connectToMonitor at hsk2
      split at hsk2
      · exact ih sk hsk2
      · split at hsk2
        · rw [scheduleReconnect_monitorWs] at hsk2
          exact ih sk hsk2
        · have hsk3 : some (⟨.connecting, []⟩ : SocketSt) = some sk := hsk2
          injection hsk3 with h2
          subst h2
          exact sockOk_fresh cfg
    | shutdown =>
      have hsk2 : s.monitorWs.map
          (fun sk0 => (⟨.closed, sk0.framesSent⟩ : SocketSt)) = some sk := hsk
      cases hms : s.monitorWs with
      | none =>
        rw [hms] at hsk2
        exact Option.noConfusion hsk2
      | some sk0 =>
        rw [hms] at hsk2
        obtain ⟨rs, fr⟩ := sk0
        have hsk3 : some (⟨.closed, fr⟩ : SocketSt) = some sk := hsk2
        injection hsk3 with h2
        subst h2
        exact sockOk_closed_of cfg (ih _ hms)
    | callTaskEvent now args =>
      cases hrun : sendTaskEventRun cfg (isWebSocketConnected s.monitorWs) now args with
      | error e =>
        rw [step_callTaskEvent_of_error hrun] at hsk
        exact ih sk hsk
      | ok r =>
        obtain ⟨msg, t⟩ := r
        have hparts := sendTaskEventRun_ok_parts hrun
        obtain ⟨fr, hms⟩ := isWebSocketConnected_true hparts.1
        have hstep : step cfg s (.callTaskEvent now args) = appendFrame s msg := by
          simp only [step]
          rw [hrun]
        rw [hstep] at hsk
        have hsk1 : s.monitorWs.map
            (fun sk0 => (⟨sk0.readyState, sk0.framesSent ++ [msg]⟩ : SocketSt))
            = some sk := hsk
        rw [hms] at hsk1
        have hsk2 : some (⟨.opened, fr ++ [msg]⟩ : SocketSt) = some sk := hsk1
        injection hsk2 with h2
        subst h2
        have hold := ih _ hms
        have hfrne : fr ≠ [] := hold.2.1 rfl
        obtain ⟨⟨nw, hh⟩, hcount⟩ := hold.2.2 hfrne
        refine ⟨fun hc => ReadyState.noConfusion hc, fun _ => by simp, fun _ => ?_⟩
        have hmtype : (msg.type == "mcp_client_identify") = false := by
          rw [hparts.2]
          rfl
        constructor
        · refine ⟨nw, ?_⟩
          cases hfr : fr with
          | nil => exact absurd hfr hfrne
          | cons a as =>
            rw [hfr] at hh
            exact hh
        · rw [identifyCount_append_user fr hmtype]
          exact hcount
    | callRequestAuthorization nowMs now args =>
      cases hrun : requestAuthorizationRun cfg (isWebSocketConnected s.monitorWs)
          nowMs now args with
      | error e =>
        rw [step_callAuth_of_error hrun] at hsk
        exact ih sk hsk
      | ok r =>
        obtain ⟨msg, t⟩ := r
        have hparts := requestAuthorizationRun_ok_parts hrun
        obtain ⟨fr, hms⟩ := isWebSocketConnected_true hparts.1
        have hstep : step cfg s (.callRequestAuthorization nowMs now args)
            = appendFrame s msg := by
          simp only [step]
          rw [hrun]
        rw [hstep] at hsk
        have hsk1 : s.monitorWs.map
            (fun sk0 => (⟨sk0.readyState, sk0.framesSent ++ [msg]⟩ : SocketSt))
            = some sk := hsk
        rw [hms] at hsk1
        have hsk2 : some (⟨.opened, fr ++ [msg]⟩ : SocketSt) = some sk := hsk1
        injection hsk2 with h2
        subst h2
        have hold := ih _ hms
        have hfrne : fr ≠ [] := hold.2.1 rfl
        obtain ⟨⟨nw, hh⟩, hcount⟩ := hold.2.2 hfrne
        refine ⟨fun hc => ReadyState.noConfusion hc, fun _ => by simp, fun _ => ?_⟩
        have hmtype : (msg.type == "mcp_client_identify") = false := by
          rw [hparts.2]
          rfl
        constructor
        · refine ⟨nw, ?_⟩
          cases hfr : fr with
          | nil => exact absurd hfr hfrne
          | cons a as =>
            rw [hfr] at hh
            exact hh
        · rw [identifyCount_append_user fr hmtype]
          exact hcount

/-- C6: in every reachable state, the current socket has sent nothing while
still CONNECTING, and whenever it has sent anything, the first frame is the
identification message and exactly one identification frame was ever sent
on that connection — so the identify frame precedes every user-originated
envelope on each fresh connection. -/
theorem c6_identify_first_and_once (cfg : Config) (s : CMState) (h : Reachable cfg s)
    (sk : SocketSt) (hsk : s.monitorWs = some sk) :
    (sk.readyState = .connecting → sk.framesSent = [])
    ∧ (sk.framesSent ≠ [] →
        (∃ now, sk.framesSent.head? = some (identifyMessage cfg now))
        ∧ identifyCount sk.framesSent = 1) := by
  have h2 := reachable_sockOk h sk hsk
  exact ⟨h2.1, h2.2.2⟩

/-- Witness for C6 at the state right after a concrete socket open. -/
theorem c6_witness :
    (∃ now, ([identifyMessage cfg0 "2025-06-01T00:00:00Z"] : List WSMessage).head?
        = some (identifyMessage cfg0 now))
    ∧ identifyCount [identifyMessage cfg0 "2025-06-01T00:00:00Z"] = 1 := by
  have h := c6_identify_first_and_once cfg0
      (step cfg0 initState (.wsOpen "2025-06-01T00:00:00Z"))
      (Reachable.next Reachable.init (.wsOpen "2025-06-01T00:00:00Z"))
      ⟨.opened, [identifyMessage cfg0 "2025-06-01T00:00:00Z"]⟩ rfl
  exact h.2 (by simp)

lemma closedReachable_afterFailures (cfg : Config) :
    ∀ n, ClosedReachable cfg (afterFailures cfg n)
  | 0 => ClosedReachable.init
  | n + 1 =>
    ClosedReachable.next
      (ClosedReachable.next (closedReachable_afterFailures cfg n) .wsClose rfl)
      (.timerFire false) rfl

/-- Exceeding the maximum can only happen in the give-up branch of
`scheduleReconnect`, so in the closed system every reachable state whose
counter has passed the maximum has no pending timer and a downed socket. -/
lemma closedReachable_givenUp {cfg : Config} {s : CMState} (h : ClosedReachable cfg s)
    (hmax : maxReconnectAttempts < s.reconnectAttempts) : GivenUp s := by
  induction h with
  | init => exact absurd hmax (by decide)
  | next hs a ha ih =>
    rename_i s
    cases a with
    | wsOpen now =>
      cases hms : s.monitorWs with
      | none =>
        rw [show step cfg s (.wsOpen now) = s from by simp [step, hms]] at hmax ⊢
        exact ih hmax
      | some sk =>
        obtain ⟨rs, fr⟩ := sk
        cases rs with
        | connecting =>
          have hstep : step cfg s (.wsOpen now)
              = { s with
                    reconnectAttempts := 0
                    monitorWs := some ⟨.opened, fr ++ [identifyMessage cfg now]⟩ } := by
            simp [step, hms]
          rw [hstep] at hmax
          have hmax0 : maxReconnectAttempts < 0 := hmax
          exact absurd hmax0 (by omega)
        | opened =>
          rw [show step cfg s (.wsOpen now) = s from by simp [step, hms]] at hmax ⊢
          exact ih hmax
        | closed =>
          rw [show step cfg s (.wsOpen now) = s from by simp [step, hms]] at hmax ⊢
          exact ih hmax
    | wsClose =>
      cases hms : s.monitorWs with
      | none =>
        rw [show step cfg s .wsClose = s from by simp [step, hms]] at hmax ⊢
        exact ih hmax
      | some sk =>
        obtain ⟨rs, fr⟩ := sk
        have hlive : ∀ rs0 : ReadyState, rs0 ≠ .closed →
            s.monitorWs = some ⟨rs0, fr⟩ →
            step cfg s .wsClose
              = scheduleReconnect { s with monitorWs := some ⟨.closed, fr⟩ } → 
            GivenUp (step cfg s .wsClose) := by
          intro rs0 hrs0 hms0 hstep
          have ht0 : s.pendingTimers = 0 :=
            pendingTimers_zero_of_live (closedReachable_timerInv hs) hms0 hrs0
          rw [hstep] at hmax ⊢
          unfold scheduleReconnect at hmax ⊢
          by_cases hflag : ({ s with monitorWs := some ⟨.closed, fr⟩ }
              : CMState).isShuttingDown = true
          · rw [if_pos hflag] at hmax ⊢
            exact ⟨hmax, ht0, rfl⟩
          · rw [if_neg hflag] at hmax ⊢
            by_cases hgt : ({ s with monitorWs := some ⟨.closed, fr⟩ }
                : CMState).reconnectAttempts + 1 > maxReconnectAttempts
            · rw [if_pos hgt] at hmax ⊢
              exact ⟨hgt, ht0, rfl⟩
            · rw [if_neg hgt] at hmax ⊢
              exact absurd hmax hgt
        cases rs with
        | closed =>
          rw [show step cfg s .wsClose = s from by simp [step, hms]] at hmax ⊢
          exact ih hmax
        | connecting => exact hlive .connecting (by decide) hms (by simp [step, hms])
        | opened => exact hlive .opened (by decide) hms (by simp [step, hms])
    | wsError => exact ih hmax
    | wsInbound => exact ih hmax
    | timerFire ct =>
      rcases Nat.eq_zero_or_pos s.pendingTimers with ht | ht
      · rw [show step cfg s (.timerFire ct) = s from by simp [step, ht]] at hmax ⊢
        exact ih hmax
      · have h1 : s.pendingTimers = 1 := by
          have := (closedReachable_timerInv hs).1
          omega
        have hd : socketDown s.monitorWs = true := (closedReachable_timerInv hs).2 h1
        have hstep : step cfg s (.timerFire ct)
            = connectToMonitor { s with pendingTimers := s.pendingTimers - 1 } ct := by
          simp only [step]
          rw [if_neg (by omega)]
        rw [hstep] at hmax ⊢
        unfold connectToMonitor at hmax ⊢
        by_cases hflag : ({ s with pendingTimers := s.pendingTimers - 1 }
            : CMState).isShuttingDown = true
        · rw [if_pos hflag] at hmax ⊢
          have hmax2 : maxReconnectAttempts < s.reconnectAttempts := hmax
          have hg := ih hmax2
          exact absurd hg.2.1 (by omega)
        · rw [if_neg hflag] at hmax ⊢
          by_cases hct : ct = true
          · rw [if_pos hct] at hmax ⊢
            unfold scheduleReconnect at hmax ⊢
            rw [if_neg hflag] at hmax ⊢
            by_cases hgt : ({ s with pendingTimers := s.pendingTimers - 1 }
                : CMState).reconnectAttempts + 1 > maxReconnectAttempts
            · rw [if_pos hgt] at hmax ⊢
              refine ⟨hgt, ?_, hd⟩
              show s.pendingTimers - 1 = 0
              omega
            · rw [if_neg hgt] at hmax ⊢
              exact absurd hmax hgt
          · rw [if_neg hct] at hmax ⊢
            have hmax2 : maxReconnectAttempts < s.reconnectAttempts := hmax
            have hg := ih hmax2
            exact absurd hg.2.1 (by omega)
    | externalConnect ct => exact Bool.noConfusion ha
    | shutdown =>
      have hmax2 : maxReconnectAttempts < s.reconnectAttempts := hmax
      have hg := ih hmax2
      exact ⟨hmax2, hg.2.1, socketDown_map_closed s.monitorWs⟩
    | callTaskEvent now args =>
      cases hrun : sendTaskEventRun cfg (isWebSocketConnected s.monitorWs) now args with
      | error e =>
        rw [step_callTaskEvent_of_error hrun] at hmax ⊢
        exact ih hmax
      | ok r =>
        obtain ⟨msg, t⟩ := r
        obtain ⟨fr, hms⟩ := isWebSocketConnected_true (sendTaskEventRun_ok_parts hrun).1
        have hstep : step cfg s (.callTaskEvent now args) = appendFrame s msg := by
          simp only [step]
          rw [hrun]
        rw [hstep] at hmax
        have hmax2 : maxReconnectAttempts < s.reconnectAttempts := hmax
        have hg := ih hmax2
        have hdown := hg.2.2
        rw [hms] at hdown
        exact Bool.noConfusion hdown
    | callRequestAuthorization nowMs now args =>
      cases hrun : requestAuthorizationRun cfg (isWebSocketConnected s.monitorWs)
          nowMs now args with
      | error e =>
        rw [step_callAuth_of_error hrun] at hmax ⊢
        exact ih hmax
      | ok r =>
        obtain ⟨msg, t⟩ := r
        obtain ⟨fr, hms⟩ := isWebSocketConnected_true
          (requestAuthorizationRun_ok_parts hrun).1
        have hstep : step cfg s (.callRequestAuthorization nowMs now args)
            = appendFrame s msg := by
          simp only [step]
          rw [hrun]
        rw [hstep] at hmax
        have hmax2 : maxReconnectAttempts < s.reconnectAttempts := hmax
        have hg := ih hmax2
        have hdown := hg.2.2
        rw [hms] at hdown
        exact Bool.noConfusion hdown

/-- C3: in the closed system, once the reconnect counter has passed the
configured maximum (10), no timer is pending and the socket is down, and no
subsequent sequence of events — socket events, timer expiries, shutdown,
tool calls; everything except an explicit external fresh `connect()` call —
ever creates another backoff timer: the given-up state persists, the delay
log never grows, and no timer is ever pending; every step is a total
function, so reaching the limit cannot crash. -/
theorem c3_no_reconnect_after_give_up (cfg : Config) (s : CMState)
    (hreach : ClosedReachable cfg s)
    (hmax : maxReconnectAttempts < s.reconnectAttempts)
    (acts : List Act) (hacts : ∀ a ∈ acts, a.isExternalConnect = false) :
    GivenUp (run cfg s acts)
    ∧ (run cfg s acts).scheduledDelays = s.scheduledDelays
    ∧ (run cfg s acts).pendingTimers = 0 := by
  have hg := closedReachable_givenUp hreach hmax
  obtain ⟨hg2, hd⟩ := run_givenUp cfg acts s hg hacts
  exact ⟨hg2, hd, hg2.2.1⟩

/-- Witness for C3: the state after eleven failures has given up, and a
batch of further events leaves the delay log and timer count unchanged. -/
theorem c3_witness :
    (run cfg0 (afterFailures cfg0 11)
        [.wsClose, .timerFire false, .wsError, .shutdown]).scheduledDelays
      = (afterFailures cfg0 11).scheduledDelays
    ∧ (run cfg0 (afterFailures cfg0 11)
        [.wsClose, .timerFire false, .wsError, .shutdown]).pendingTimers = 0 := by
  have h := c3_no_reconnect_after_give_up cfg0 (afterFailures cfg0 11)
      (closedReachable_afterFailures cfg0 11) (by decide)
      [.wsClose, .timerFire false, .wsError, .shutdown]
      (by intro a ha; fin_cases ha <;> rfl)
  exact ⟨h.2.1, h.2.2⟩

end McpMonitor
